import Mathlib

/-!
Verification of the worldmodel repository against its specification.

The repository consists of a React configuration frontend (`src/App.js` and
its TypeScript variants), two persisted level artifacts produced by the
actor-generation backend, development changelogs describing that backend, and
`requirements.txt`.  The backend scripts themselves (`actors_complete.py`,
`actors_init.py`, `actors_leveldown.py`, `llm.py`, `prompts.py`) are not part
of the available sources, so the components they implement (PromptBuilder,
CostLedger, RetryController, TreeOrchestrator, RunStore) are modelled from
the specification where a claim depends on them; the persisted artifacts and
the frontend sources are embedded directly.
-/

/-! ## A JSON value type for the persisted level artifacts -/

/-- An exact decimal number `mant / 10 ^ exp`, the form in which every
numeric literal of the persisted artifacts is written.  Unlike `ℚ`, its
arithmetic reduces inside the kernel, so consistency checks on the embedded
artifacts can be evaluated. -/
structure DecNum where
  mant : Int
  exp : Nat
deriving Repr

/-- Value equality of exact decimals, by cross multiplication. -/
def DecNum.beq (a b : DecNum) : Bool :=
  a.mant * (10 : Int) ^ b.exp == b.mant * (10 : Int) ^ a.exp

instance : BEq DecNum := ⟨DecNum.beq⟩

/-- Addition of exact decimals. -/
def DecNum.add (a b : DecNum) : DecNum :=
  ⟨a.mant * (10 : Int) ^ b.exp + b.mant * (10 : Int) ^ a.exp, a.exp + b.exp⟩

/-- The decimal zero. -/
def DecNum.zero : DecNum := ⟨0, 0⟩

/-- The rational value of an exact decimal. -/
def DecNum.toRat (a : DecNum) : ℚ := (a.mant : ℚ) / (10 : ℚ) ^ a.exp

/-- JSON values.  Numbers are represented as exact decimals, which is enough
for the numeric literals that occur in the persisted artifacts. -/
inductive Json where
  | null : Json
  | bool : Bool → Json
  | str : String → Json
  | num : DecNum → Json
  | arr : List Json → Json
  | obj : List (String × Json) → Json
deriving Repr

/-- Field lookup in a JSON object; `none` on other JSON values. -/
def Json.lookup : Json → String → Option Json
  | .obj fields, key => List.lookup key fields
  | _, _ => none

/-- Keys of a JSON object, in document order. -/
def Json.keys : Json → List String
  | .obj fields => fields.map (fun f => f.1)
  | _ => []

/-- Elements of a JSON array; `[]` on other JSON values. -/
def Json.elems : Json → List Json
  | .arr xs => xs
  | _ => []

/-- Numeric payload of a JSON value, if it is a number. -/
def Json.asNum : Json → Option DecNum
  | .num q => some q
  | _ => none

/-- Lookup along a path of object keys. -/
def Json.path (j : Json) : List String → Option Json
  | [] => some j
  | key :: rest => match j.lookup key with
    | some v => v.path rest
    | none => none

/-- Numeric value found at a path of object keys, or `none`. -/
def Json.numAt (j : Json) (p : List String) : Option DecNum :=
  (j.path p).bind Json.asNum
/-- Embedding of src/backend/init_logs/run_2025-07-16_18/Features_level_0_with_params1.json,
the persisted level-0 artifact of the repository. -/
def level0Artifact : Json :=
  Json.obj [
    ("metadata", Json.obj [
      ("timestamp", Json.str "2025-07-16T15:53:33.318878"),
      ("run_folder", Json.str "run_2025-07-16_18"),
      ("model_provider", Json.str "anthropic"),
      ("model_name", Json.str "claude-3-5-sonnet-latest"),
      ("num_actors_requested", Json.num ⟨2, 0⟩),
      ("num_actors_generated", Json.num ⟨2, 0⟩),
      ("script_version", Json.str "2.0.0"),
      ("generation_method", Json.str "LLM-based"),
      ("level", Json.num ⟨0, 0⟩),
      ("cost_tracking", Json.obj [
        ("total_cost", Json.num ⟨76159999999999995, 19⟩),
        ("api_calls", Json.num ⟨1, 0⟩),
        ("providers", Json.obj [
          ("anthropic", Json.obj [
            ("cost", Json.num ⟨76159999999999995, 19⟩),
            ("calls", Json.num ⟨1, 0⟩),
            ("models", Json.obj [
              ("claude-3-5-sonnet-latest", Json.obj [
                ("cost", Json.num ⟨76159999999999995, 19⟩),
                ("calls", Json.num ⟨1, 0⟩),
                ("tokens", Json.obj [
                  ("input", Json.num ⟨448, 0⟩),
                  ("output", Json.num ⟨168, 0⟩),
                  ("total", Json.num ⟨616, 0⟩)])])]),
            ("tokens", Json.obj [
              ("input", Json.num ⟨448, 0⟩),
              ("output", Json.num ⟨168, 0⟩),
              ("total", Json.num ⟨616, 0⟩)])])]),
        ("session_start", Json.str "2025-07-16T15:53:28.267418"),
        ("tokens_used", Json.obj [
          ("input_tokens", Json.num ⟨448, 0⟩),
          ("output_tokens", Json.num ⟨168, 0⟩),
          ("total_tokens", Json.num ⟨616, 0⟩)]),
        ("session_duration_seconds", Json.num ⟨5051455, 6⟩),
        ("session_duration_str", Json.str "0:00:05.051455"),
        ("average_cost_per_call", Json.num ⟨76159999999999995, 19⟩),
        ("cost_per_1k_tokens", Json.num ⟨12363636363636363, 18⟩)])]),
    ("actors", Json.arr [
      Json.obj [
        ("name", Json.str "United States of America"),
        ("description", Json.str "Global superpower with unmatched military capabilities, largest economy by GDP, dominant financial system (USD), technological leadership, and extensive diplomatic influence across all continents. Controls key international institutions and maintains significant cultural soft power."),
        ("type", Json.str "country"),
        ("depth", Json.num ⟨1, 0⟩),
        ("parameters", Json.arr [
          Json.obj [
            ("code_name", Json.str "gdp_nominal"),
            ("name", Json.str "Nominal GDP"),
            ("description", Json.str "Total annual Gross Domestic Product in current US dollars."),
            ("type", Json.str "float"),
            ("expected_value", Json.str "20-25 trillion USD")],
          Json.obj [
            ("code_name", Json.str "military_budget"),
            ("name", Json.str "Military Budget"),
            ("description", Json.str "Annual defense spending including all military branches and operations."),
            ("type", Json.str "float"),
            ("expected_value", Json.str "700-800 billion USD")],
          Json.obj [
            ("code_name", Json.str "population"),
            ("name", Json.str "Total Population"),
            ("description", Json.str "Current total number of residents and citizens."),
            ("type", Json.str "integer"),
            ("expected_value", Json.str "330-340 million")],
          Json.obj [
            ("code_name", Json.str "nuclear_warheads"),
            ("name", Json.str "Nuclear Warhead Count"),
            ("description", Json.str "Total number of operational nuclear weapons in arsenal."),
            ("type", Json.str "integer"),
            ("expected_value", Json.str "5000-6000")],
          Json.obj [
            ("code_name", Json.str "veto_power_un"),
            ("name", Json.str "UN Security Council Veto Power"),
            ("description", Json.str "Permanent member status with veto power in UN Security Council."),
            ("type", Json.str "boolean"),
            ("expected_value", Json.str "true")],
          Json.obj [
            ("code_name", Json.str "global_reserve_currency_share"),
            ("name", Json.str "Global Reserve Currency Share"),
            ("description", Json.str "Percentage of global foreign exchange reserves held in USD."),
            ("type", Json.str "float"),
            ("expected_value", Json.str "55-65%")],
          Json.obj [
            ("code_name", Json.str "diplomatic_missions"),
            ("name", Json.str "Diplomatic Mission Count"),
            ("description", Json.str "Number of embassies, consulates, and diplomatic offices worldwide."),
            ("type", Json.str "integer"),
            ("expected_value", Json.str "250-300")],
          Json.obj [
            ("code_name", Json.str "tech_companies_market_cap"),
            ("name", Json.str "Tech Companies Market Cap"),
            ("description", Json.str "Combined market capitalization of top tech companies."),
            ("type", Json.str "float"),
            ("expected_value", Json.str "8-12 trillion USD")],
          Json.obj [
            ("code_name", Json.str "higher_education_rank"),
            ("name", Json.str "Higher Education Ranking"),
            ("description", Json.str "Global ranking in higher education system quality and research output."),
            ("type", Json.str "integer"),
            ("expected_value", Json.str "1-3")],
          Json.obj [
            ("code_name", Json.str "aircraft_carriers"),
            ("name", Json.str "Aircraft Carrier Count"),
            ("description", Json.str "Number of operational aircraft carriers in naval fleet."),
            ("type", Json.str "integer"),
            ("expected_value", Json.str "11-12")],
          Json.obj [
            ("code_name", Json.str "nato_contribution"),
            ("name", Json.str "NATO Defense Contribution"),
            ("description", Json.str "Percentage of total NATO defense spending."),
            ("type", Json.str "float"),
            ("expected_value", Json.str "65-75%")],
          Json.obj [
            ("code_name", Json.str "patents_filed"),
            ("name", Json.str "Annual Patents Filed"),
            ("description", Json.str "Number of patents filed annually within the country."),
            ("type", Json.str "integer"),
            ("expected_value", Json.str "500000-600000")],
          Json.obj [
            ("code_name", Json.str "trade_volume"),
            ("name", Json.str "International Trade Volume"),
            ("description", Json.str "Total annual import and export value."),
            ("type", Json.str "float"),
            ("expected_value", Json.str "4-5 trillion USD")],
          Json.obj [
            ("code_name", Json.str "foreign_aid_budget"),
            ("name", Json.str "Foreign Aid Budget"),
            ("description", Json.str "Annual foreign assistance and development aid spending."),
            ("type", Json.str "float"),
            ("expected_value", Json.str "35-45 billion USD")],
          Json.obj [
            ("code_name", Json.str "gdp_per_capita"),
            ("name", Json.str "GDP per Capita"),
            ("description", Json.str "Average GDP per person in current US dollars."),
            ("type", Json.str "float"),
            ("expected_value", Json.str "60000-70000 USD")],
          Json.obj [
            ("code_name", Json.str "internet_penetration"),
            ("name", Json.str "Internet Penetration Rate"),
            ("description", Json.str "Percentage of population with internet access."),
            ("type", Json.str "float"),
            ("expected_value", Json.str "85-95%")],
          Json.obj [
            ("code_name", Json.str "r_and_d_spending"),
            ("name", Json.str "R&D Spending"),
            ("description", Json.str "Annual research and development expenditure as percentage of GDP."),
            ("type", Json.str "float"),
            ("expected_value", Json.str "2.5-3.5%")],
          Json.obj [
            ("code_name", Json.str "soft_power_index"),
            ("name", Json.str "Soft Power Index"),
            ("description", Json.str "Measure of non-coercive international influence through culture, values, and policies."),
            ("type", Json.str "float"),
            ("expected_value", Json.str "0.8-1.0")],
          Json.obj [
            ("code_name", Json.str "military_personnel"),
            ("name", Json.str "Active Military Personnel"),
            ("description", Json.str "Total number of active duty military personnel."),
            ("type", Json.str "integer"),
            ("expected_value", Json.str "1.3-1.4 million")],
          Json.obj [
            ("code_name", Json.str "debt_to_gdp"),
            ("name", Json.str "Debt to GDP Ratio"),
            ("description", Json.str "National debt as a percentage of GDP."),
            ("type", Json.str "float"),
            ("expected_value", Json.str "120-140%")]])],
      Json.obj [
        ("name", Json.str "People\x27s Republic of China"),
        ("description", Json.str "Second largest economy, rising military power, largest population, dominant manufacturing base, growing technological capabilities, massive infrastructure investments (Belt and Road), and increasing diplomatic influence, especially in developing nations."),
        ("type", Json.str "country"),
        ("depth", Json.num ⟨1, 0⟩),
        ("parameters", Json.arr [
          Json.obj [
            ("code_name", Json.str "gdp_nominal"),
            ("name", Json.str "GDP (Nominal)"),
            ("description", Json.str "Total annual Gross Domestic Product in current USD."),
            ("type", Json.str "float"),
            ("expected_value", Json.str "12-18 trillion USD")],
          Json.obj [
            ("code_name", Json.str "population"),
            ("name", Json.str "Total Population"),
            ("description", Json.str "Total number of permanent residents in the country."),
            ("type", Json.str "integer"),
            ("expected_value", Json.str "1.3-1.4 billion")],
          Json.obj [
            ("code_name", Json.str "military_spending"),
            ("name", Json.str "Military Expenditure"),
            ("description", Json.str "Annual defense budget and military-related spending."),
            ("type", Json.str "float"),
            ("expected_value", Json.str "200-300 billion USD")],
          Json.obj [
            ("code_name", Json.str "manufacturing_output"),
            ("name", Json.str "Manufacturing Output"),
            ("description", Json.str "Annual total manufacturing production value."),
            ("type", Json.str "float"),
            ("expected_value", Json.str "3-5 trillion USD")],
          Json.obj [
            ("code_name", Json.str "foreign_reserves"),
            ("name", Json.str "Foreign Exchange Reserves"),
            ("description", Json.str "Total value of foreign currency reserves held by central bank."),
            ("type", Json.str "float"),
            ("expected_value", Json.str "3-4 trillion USD")],
          Json.obj [
            ("code_name", Json.str "belt_road_investment"),
            ("name", Json.str "Belt and Road Investment"),
            ("description", Json.str "Cumulative investment in Belt and Road Initiative projects."),
            ("type", Json.str "float"),
            ("expected_value", Json.str "500-1000 billion USD")],
          Json.obj [
            ("code_name", Json.str "rd_spending"),
            ("name", Json.str "R&D Spending"),
            ("description", Json.str "Annual spending on research and development across all sectors."),
            ("type", Json.str "float"),
            ("expected_value", Json.str "300-500 billion USD")],
          Json.obj [
            ("code_name", Json.str "urbanization_rate"),
            ("name", Json.str "Urbanization Rate"),
            ("description", Json.str "Percentage of population living in urban areas."),
            ("type", Json.str "float"),
            ("expected_value", Json.str "60-65%")],
          Json.obj [
            ("code_name", Json.str "energy_consumption"),
            ("name", Json.str "Energy Consumption"),
            ("description", Json.str "Total annual energy consumption in million tonnes of oil equivalent."),
            ("type", Json.str "float"),
            ("expected_value", Json.str "3000-3500 MTOE")],
          Json.obj [
            ("code_name", Json.str "export_value"),
            ("name", Json.str "Export Value"),
            ("description", Json.str "Total annual value of exports."),
            ("type", Json.str "float"),
            ("expected_value", Json.str "2.5-3 trillion USD")],
          Json.obj [
            ("code_name", Json.str "tech_patents"),
            ("name", Json.str "Technology Patents"),
            ("description", Json.str "Number of technology patents filed annually."),
            ("type", Json.str "integer"),
            ("expected_value", Json.str "1.3-1.6 million")],
          Json.obj [
            ("code_name", Json.str "diplomatic_missions"),
            ("name", Json.str "Diplomatic Missions"),
            ("description", Json.str "Number of diplomatic missions and consulates worldwide."),
            ("type", Json.str "integer"),
            ("expected_value", Json.str "160-180")],
          Json.obj [
            ("code_name", Json.str "internet_users"),
            ("name", Json.str "Internet Users"),
            ("description", Json.str "Number of active internet users in the country."),
            ("type", Json.str "integer"),
            ("expected_value", Json.str "800-900 million")],
          Json.obj [
            ("code_name", Json.str "co2_emissions"),
            ("name", Json.str "CO2 Emissions"),
            ("description", Json.str "Annual carbon dioxide emissions in metric tons."),
            ("type", Json.str "float"),
            ("expected_value", Json.str "9-11 billion metric tons")],
          Json.obj [
            ("code_name", Json.str "high_speed_rail"),
            ("name", Json.str "High-Speed Rail Network"),
            ("description", Json.str "Total length of high-speed rail network in kilometers."),
            ("type", Json.str "float"),
            ("expected_value", Json.str "35000-40000 km")],
          Json.obj [
            ("code_name", Json.str "university_count"),
            ("name", Json.str "Universities"),
            ("description", Json.str "Number of higher education institutions."),
            ("type", Json.str "integer"),
            ("expected_value", Json.str "2800-3000")],
          Json.obj [
            ("code_name", Json.str "military_personnel"),
            ("name", Json.str "Active Military Personnel"),
            ("description", Json.str "Number of active duty military personnel."),
            ("type", Json.str "integer"),
            ("expected_value", Json.str "2-2.2 million")],
          Json.obj [
            ("code_name", Json.str "trade_partners"),
            ("name", Json.str "Major Trade Partners"),
            ("description", Json.str "Number of countries with significant bilateral trade relationships."),
            ("type", Json.str "integer"),
            ("expected_value", Json.str "120-140")],
          Json.obj [
            ("code_name", Json.str "debt_to_gdp"),
            ("name", Json.str "Debt to GDP Ratio"),
            ("description", Json.str "Total government debt as percentage of GDP."),
            ("type", Json.str "float"),
            ("expected_value", Json.str "250-300%")],
          Json.obj [
            ("code_name", Json.str "soft_power_index"),
            ("name", Json.str "Soft Power Index"),
            ("description", Json.str "Composite score measuring cultural, diplomatic, and economic influence globally."),
            ("type", Json.str "float"),
            ("expected_value", Json.str "60-80 out of 100")]])]]),
    ("total_count", Json.num ⟨2, 0⟩)]

/-- Embedding of the persisted level-2 artifact (Features_level_2 document) found in the
repository sources (src/unnamed/part_002). -/
def level2Artifact : Json :=
  Json.obj [
    ("metadata", Json.obj [
      ("timestamp", Json.str "2025-07-16T14:23:03.112728"),
      ("run_folder", Json.str "run_2025-07-16_16"),
      ("model_provider", Json.str "anthropic"),
      ("model_name", Json.str "claude-3-5-sonnet-latest"),
      ("script_version", Json.str "2.0.0"),
      ("level", Json.num ⟨2, 0⟩),
      ("parent_file", Json.str "Features_level_1.json"),
      ("original_metadata", Json.obj [
        ("timestamp", Json.str "2025-07-16T14:22:48.533055"),
        ("run_folder", Json.str "run_2025-07-16_16"),
        ("model_provider", Json.str "anthropic"),
        ("model_name", Json.str "claude-3-5-sonnet-latest"),
        ("num_actors_requested", Json.num ⟨2, 0⟩),
        ("num_actors_generated", Json.num ⟨2, 0⟩),
        ("script_version", Json.str "2.0.0"),
        ("generation_method", Json.str "LLM-based"),
        ("level", Json.num ⟨0, 0⟩),
        ("cost_tracking", Json.obj [
          ("total_cost", Json.num ⟨7568, 6⟩),
          ("api_calls", Json.num ⟨1, 0⟩),
          ("providers", Json.obj [
            ("anthropic", Json.obj [
              ("cost", Json.num ⟨7568, 6⟩),
              ("calls", Json.num ⟨1, 0⟩),
              ("models", Json.obj [
                ("claude-3-5-sonnet-latest", Json.obj [
                  ("cost", Json.num ⟨7568, 6⟩),
                  ("calls", Json.num ⟨1, 0⟩),
                  ("tokens", Json.obj [
                    ("input", Json.num ⟨448, 0⟩),
                    ("output", Json.num ⟨166, 0⟩),
                    ("total", Json.num ⟨614, 0⟩)])])]),
              ("tokens", Json.obj [
                ("input", Json.num ⟨448, 0⟩),
                ("output", Json.num ⟨166, 0⟩),
                ("total", Json.num ⟨614, 0⟩)])])]),
          ("session_start", Json.str "2025-07-16T14:22:42.498918"),
          ("tokens_used", Json.obj [
            ("input_tokens", Json.num ⟨448, 0⟩),
            ("output_tokens", Json.num ⟨166, 0⟩),
            ("total_tokens", Json.num ⟨614, 0⟩)]),
          ("session_duration_seconds", Json.num ⟨6034127, 6⟩),
          ("session_duration_str", Json.str "0:00:06.034127"),
          ("average_cost_per_call", Json.num ⟨7568, 6⟩),
          ("cost_per_1k_tokens", Json.num ⟨12325732899022801, 18⟩)])]),
      ("parallelization", Json.obj [
        ("enabled", Json.bool true),
        ("max_concurrent_threads", Json.num ⟨5, 0⟩),
        ("total_parallel_tasks", Json.num ⟨4, 0⟩)]),
      ("generation_stats", Json.obj [
        ("total_main_actors", Json.num ⟨2, 0⟩),
        ("total_subactors", Json.num ⟨12, 0⟩),
        ("actors_with_subactors", Json.num ⟨2, 0⟩),
        ("avg_subactors_per_actor", Json.num ⟨60, 1⟩),
        ("successful_actors", Json.num ⟨4, 0⟩),
        ("failed_actors", Json.num ⟨0, 0⟩)]),
      ("cost_tracking", Json.obj [
        ("total_cost", Json.num ⟨6801600000000001, 17⟩),
        ("api_calls", Json.num ⟨7, 0⟩),
        ("providers", Json.obj [
          ("anthropic", Json.obj [
            ("cost", Json.num ⟨6801600000000001, 17⟩),
            ("calls", Json.num ⟨7, 0⟩),
            ("models", Json.obj [
              ("claude-3-5-sonnet-latest", Json.obj [
                ("cost", Json.num ⟨6801600000000001, 17⟩),
                ("calls", Json.num ⟨7, 0⟩),
                ("tokens", Json.obj [
                  ("input", Json.num ⟨3078, 0⟩),
                  ("output", Json.num ⟨1808, 0⟩),
                  ("total", Json.num ⟨4886, 0⟩)])])]),
            ("tokens", Json.obj [
              ("input", Json.num ⟨3078, 0⟩),
              ("output", Json.num ⟨1808, 0⟩),
              ("total", Json.num ⟨4886, 0⟩)])])]),
        ("session_start", Json.str "2025-07-16T14:22:42.498918"),
        ("tokens_used", Json.obj [
          ("input_tokens", Json.num ⟨3078, 0⟩),
          ("output_tokens", Json.num ⟨1808, 0⟩),
          ("total_tokens", Json.num ⟨4886, 0⟩)]),
        ("session_duration_seconds", Json.num ⟨20613796, 6⟩),
        ("session_duration_str", Json.str "0:00:20.613796"),
        ("average_cost_per_call", Json.num ⟨971657142857143, 17⟩),
        ("cost_per_1k_tokens", Json.num ⟨13920589439214082, 18⟩)])]),
    ("actors", Json.arr [
      Json.obj [
        ("name", Json.str "United States of America"),
        ("description", Json.str "Global superpower with unmatched military strength, largest economy by GDP, dominant financial system (USD), technological leadership, and extensive diplomatic influence. Controls key international institutions and maintains significant cultural soft power through media and entertainment."),
        ("type", Json.str "country"),
        ("sub_actors", Json.arr [
          Json.obj [
            ("name", Json.str "Executive Office of the President"),
            ("description", Json.str "Core executive branch leadership headed by the President, wielding extensive executive authority over federal policy, national security, foreign relations, and military command. Controls federal agencies, issues executive orders, and shapes national agenda through veto power and administrative actions."),
            ("type", Json.str "government"),
            ("parent_actor", Json.str "United States of America"),
            ("sub_actors", Json.arr [
              Json.obj [
                ("name", Json.str "Lockheed Martin Corporation"),
                ("description", Json.str "Leading defense contractor and aerospace company with extensive government contracts, particularly in military aircraft, missiles, and advanced technology systems. Major supplier to Department of Defense and intelligence agencies, wielding significant influence in defense policy and procurement decisions."),
                ("type", Json.str "corporation"),
                ("parent_actor", Json.str "Executive Office of the President"),
                ("sub_actors", Json.arr []),
                ("sub_actors_count", Json.num ⟨0, 0⟩)],
              Json.obj [
                ("name", Json.str "Amazon Web Services (AWS)"),
                ("description", Json.str "Primary cloud computing provider for numerous federal agencies, including CIA and Department of Defense through JEDI and C2E contracts. Critical infrastructure provider for government operations and classified data management systems."),
                ("type", Json.str "corporation"),
                ("parent_actor", Json.str "Executive Office of the President"),
                ("sub_actors", Json.arr []),
                ("sub_actors_count", Json.num ⟨0, 0⟩)],
              Json.obj [
                ("name", Json.str "Palantir Technologies"),
                ("description", Json.str "Data analytics and software company with deep ties to federal intelligence and defense agencies. Provides critical data integration and analysis platforms for national security, immigration enforcement, and federal decision-making processes."),
                ("type", Json.str "corporation"),
                ("parent_actor", Json.str "Executive Office of the President"),
                ("sub_actors", Json.arr []),
                ("sub_actors_count", Json.num ⟨0, 0⟩)]]),
            ("sub_actors_count", Json.num ⟨3, 0⟩)],
          Json.obj [
            ("name", Json.str "Federal Reserve System"),
            ("description", Json.str "Central bank of the United States that controls monetary policy, regulates banking system, and manages currency stability. Immense influence over global financial markets through interest rate decisions and dollar policy, directly impacting US and world economies."),
            ("type", Json.str "institution"),
            ("parent_actor", Json.str "United States of America"),
            ("sub_actors", Json.arr [
              Json.obj [
                ("name", Json.str "JPMorgan Chase & Co."),
                ("description", Json.str "Largest U.S. bank by assets, primary dealer of U.S. Treasury securities, and major participant in Federal Reserve operations. Critical role in implementing Fed monetary policy through market operations and serving as a key intermediary in the federal funds market."),
                ("type", Json.str "corporation"),
                ("parent_actor", Json.str "Federal Reserve System"),
                ("sub_actors", Json.arr []),
                ("sub_actors_count", Json.num ⟨0, 0⟩)],
              Json.obj [
                ("name", Json.str "BlackRock, Inc."),
                ("description", Json.str "World\x27s largest asset manager, serves as key advisor to the Federal Reserve for bond-buying programs and market operations. Significant influence in Fed\x27s emergency lending facilities and implementation of monetary policy through market operations."),
                ("type", Json.str "corporation"),
                ("parent_actor", Json.str "Federal Reserve System"),
                ("sub_actors", Json.arr []),
                ("sub_actors_count", Json.num ⟨0, 0⟩)],
              Json.obj [
                ("name", Json.str "Goldman Sachs Group"),
                ("description", Json.str "Leading global investment bank and primary dealer, crucial participant in Fed\x27s market operations and monetary policy implementation. Major influence in financial markets and Fed\x27s regulatory framework through executive appointments and policy advisory roles."),
                ("type", Json.str "corporation"),
                ("parent_actor", Json.str "Federal Reserve System"),
                ("sub_actors", Json.arr []),
                ("sub_actors_count", Json.num ⟨0, 0⟩)]]),
            ("sub_actors_count", Json.num ⟨3, 0⟩)]]),
        ("sub_actors_count", Json.num ⟨2, 0⟩)],
      Json.obj [
        ("name", Json.str "China"),
        ("description", Json.str "Second largest economy, rising military power, largest population, dominant manufacturing base, increasing technological capabilities, major infrastructure investments (Belt and Road), and growing diplomatic influence across Asia, Africa, and beyond."),
        ("type", Json.str "country"),
        ("sub_actors", Json.arr [
          Json.obj [
            ("name", Json.str "Chinese Communist Party (CCP)"),
            ("description", Json.str "The ruling political party and ultimate power center of China, controlling all aspects of governance, military, economy and society through its Politburo Standing Committee and extensive party apparatus. Sets national policy direction and strategy at all levels."),
            ("type", Json.str "party"),
            ("parent_actor", Json.str "China"),
            ("sub_actors", Json.arr [
              Json.obj [
                ("name", Json.str "Sinopec Group"),
                ("description", Json.str "State-owned petroleum and petrochemical enterprise group, China\x27s largest oil refining company and second-largest oil and gas producer. Critical to China\x27s energy security and economic development with extensive international operations."),
                ("type", Json.str "corporation"),
                ("parent_actor", Json.str "Chinese Communist Party (CCP)"),
                ("sub_actors", Json.arr []),
                ("sub_actors_count", Json.num ⟨0, 0⟩)],
              Json.obj [
                ("name", Json.str "China State Construction Engineering Corporation"),
                ("description", Json.str "World\x27s largest construction company and real estate conglomerate, responsible for major infrastructure projects both domestically and internationally as part of Belt and Road Initiative. Key executor of CCP\x27s infrastructure development strategy."),
                ("type", Json.str "corporation"),
                ("parent_actor", Json.str "Chinese Communist Party (CCP)"),
                ("sub_actors", Json.arr []),
                ("sub_actors_count", Json.num ⟨0, 0⟩)],
              Json.obj [
                ("name", Json.str "Industrial and Commercial Bank of China"),
                ("description", Json.str "World\x27s largest bank by total assets, providing critical financial services and implementing CCP\x27s monetary policies. Essential for China\x27s economic control and international financial influence."),
                ("type", Json.str "corporation"),
                ("parent_actor", Json.str "Chinese Communist Party (CCP)"),
                ("sub_actors", Json.arr []),
                ("sub_actors_count", Json.num ⟨0, 0⟩)]]),
            ("sub_actors_count", Json.num ⟨3, 0⟩)],
          Json.obj [
            ("name", Json.str "State Council of the People\x27s Republic of China"),
            ("description", Json.str "China\x27s chief administrative authority and highest executive organ of state power, responsible for implementing CCP policies, managing the economy, overseeing state bureaucracy, and coordinating between ministries and provinces."),
            ("type", Json.str "government"),
            ("parent_actor", Json.str "China"),
            ("sub_actors", Json.arr [
              Json.obj [
                ("name", Json.str "Sinopec Group"),
                ("description", Json.str "State-owned petroleum and petrochemical enterprise group, China\x27s largest oil refining company and second-largest oil and gas producer. Major driver of national energy security and economic development with extensive international operations."),
                ("type", Json.str "corporation"),
                ("parent_actor", Json.str "State Council of the People\x27s Republic of China"),
                ("sub_actors", Json.arr []),
                ("sub_actors_count", Json.num ⟨0, 0⟩)],
              Json.obj [
                ("name", Json.str "State Grid Corporation of China"),
                ("description", Json.str "World\x27s largest utility company operating China\x27s national power grid. Controls electricity transmission and distribution across 26 provinces, serving over 1.1 billion people and critical to national infrastructure."),
                ("type", Json.str "corporation"),
                ("parent_actor", Json.str "State Council of the People\x27s Republic of China"),
                ("sub_actors", Json.arr []),
                ("sub_actors_count", Json.num ⟨0, 0⟩)],
              Json.obj [
                ("name", Json.str "China National Petroleum Corporation"),
                ("description", Json.str "State-owned oil and gas corporation, largest integrated energy company in China. Controls majority of China\x27s oil and gas production and supply, with significant international presence and strategic importance to national energy security."),
                ("type", Json.str "corporation"),
                ("parent_actor", Json.str "State Council of the People\x27s Republic of China"),
                ("sub_actors", Json.arr []),
                ("sub_actors_count", Json.num ⟨0, 0⟩)]]),
            ("sub_actors_count", Json.num ⟨3, 0⟩)]]),
        ("sub_actors_count", Json.num ⟨2, 0⟩)]]),
    ("total_main_actors", Json.num ⟨2, 0⟩),
    ("total_subactors", Json.num ⟨12, 0⟩),
    ("level", Json.num ⟨2, 0⟩)]

/-! ## Frontend data model (src/App.js and the App.tsx variants)

The parameter table, parameter-card state and the handlers acting on it are
translated from `src/App.js` (identical logic appears in the two App.tsx
variants of the sources). -/

/-- One entry of the `worldModelParameters` table of src/App.js. -/
structure WorldModelParameter where
  id : String
  label : String
  min : Nat
  max : Nat
  step : Nat
  unit : String
deriving Repr, DecidableEq

/-- The `worldModelParameters` constant of src/App.js. -/
def worldModelParameters : List WorldModelParameter := [
  ⟨"population", "Population", 0, 15000000000, 1000000, "people"⟩,
  ⟨"economy", "Economic Growth", 0, 100, 1, "%"⟩,
  ⟨"environment", "Environmental Quality", 0, 100, 1, "%"⟩,
  ⟨"technology", "Technology Level", 0, 100, 1, "%"⟩,
  ⟨"health", "Health Index", 0, 100, 1, "%"⟩,
  ⟨"education", "Education Level", 0, 100, 1, "%"⟩,
  ⟨"governance", "Governance Quality", 0, 100, 1, "%"⟩,
  ⟨"climate_stability", "Climate Stability", 0, 100, 1, "%"⟩,
  ⟨"resource_scarcity", "Resource Scarcity", 0, 100, 1, "%"⟩,
  ⟨"social_cohesion", "Social Cohesion", 0, 100, 1, "%"⟩,
  ⟨"political_stability", "Political Stability", 0, 100, 1, "%"⟩,
  ⟨"innovation_rate", "Innovation Rate", 0, 100, 1, "%"⟩,
  ⟨"energy_efficiency", "Energy Efficiency", 0, 100, 1, "%"⟩,
  ⟨"biodiversity", "Biodiversity Index", 0, 100, 1, "%"⟩,
  ⟨"urbanization", "Urbanization Level", 0, 100, 1, "%"⟩,
  ⟨"inequality", "Income Inequality", 0, 100, 1, "%"⟩,
  ⟨"trade_openness", "Trade Openness", 0, 100, 1, "%"⟩,
  ⟨"corruption_level", "Corruption Level", 0, 100, 1, "%"⟩,
  ⟨"military_spending", "Military Spending", 0, 100, 1, "% of GDP"⟩,
  ⟨"renewable_energy", "Renewable Energy", 0, 100, 1, "%"⟩,
  ⟨"water_security", "Water Security", 0, 100, 1, "%"⟩,
  ⟨"food_security", "Food Security", 0, 100, 1, "%"⟩,
  ⟨"cyber_security", "Cyber Security", 0, 100, 1, "%"⟩,
  ⟨"demographic_dividend", "Demographic Dividend", 0, 100, 1, "%"⟩,
  ⟨"global_connectivity", "Global Connectivity", 0, 100, 1, "%"⟩]

/-- The `getParameterInfo` function of src/App.js:
`worldModelParameters.find(p => p.id === parameterId) || worldModelParameters[0]`.
An `undefined` result (possible only if the table were empty) is `none`. -/
def getParameterInfo (parameterId : String) : Option WorldModelParameter :=
  (worldModelParameters.find? (fun p => p.id == parameterId)).orElse
    (fun _ => worldModelParameters.head?)

/-- Decimal rendering of `value / 1e9` to one decimal place, modelling the
JavaScript expression `(value / 1000000000).toFixed(1)` of src/App.js on
exact rationals (the claims about `formatParameterValue` concern its
definedness, not the rendered digits). -/
def formatBillions (value : Nat) : String :=
  let tenths := (value * 10 + 500000000) / 1000000000
  toString (tenths / 10) ++ "." ++ toString (tenths % 10) ++ "B"

/-- The `formatParameterValue` function of src/App.js.  The result is `none`
exactly when the JavaScript code would read `param.unit` of `undefined`. -/
def formatParameterValue (value : Nat) (parameterId : String) : Option String :=
  let param := getParameterInfo parameterId
  if parameterId == "population" then
    some (formatBillions value)
  else
    param.map (fun p => toString value ++ p.unit)

/-- One parameter card of src/App.js. -/
structure ParameterCard where
  id : Nat
  parameterId : String
  value : Nat
  order : Nat
deriving Repr, DecidableEq

/-- The card-related component state of src/App.js: the `parameterCards`
array and the `nextCardId` counter. -/
structure CardState where
  parameterCards : List ParameterCard
  nextCardId : Nat
deriving Repr, DecidableEq

/-- The `handleAddParameterCard` handler of src/App.js: appends a fresh card
with id `nextCardId`, parameter `population`, value 50 and order equal to the
current length, then increments `nextCardId`. -/
def handleAddParameterCard (s : CardState) : CardState :=
  { parameterCards := s.parameterCards ++
      [{ id := s.nextCardId, parameterId := "population", value := 50,
         order := s.parameterCards.length }],
    nextCardId := s.nextCardId + 1 }

/-- The `handleRemoveParameterCard` handler of src/App.js:
`prev.filter(card => card.id !== cardId)`. -/
def handleRemoveParameterCard (cardId : Nat) (s : CardState) : CardState :=
  { s with parameterCards := s.parameterCards.filter (fun card => card.id != cardId) }

/-- The `handleParameterCardChange` handler of src/App.js: the card with the
given id gets the new parameter id and value 50; other cards are unchanged. -/
def handleParameterCardChange (cardId : Nat) (parameterId : String) (s : CardState) : CardState :=
  { s with parameterCards := s.parameterCards.map (fun card =>
      if card.id == cardId then { card with parameterId := parameterId, value := 50 } else card) }

/-- The `handleCardSliderChange` handler of src/App.js: the card with the
given id gets the new slider value; other cards are unchanged. -/
def handleCardSliderChange (cardId : Nat) (value : Nat) (s : CardState) : CardState :=
  { s with parameterCards := s.parameterCards.map (fun card =>
      if card.id == cardId then { card with value := value } else card) }

/-- State invariant of the card list: card ids are pairwise distinct and
strictly below `nextCardId`. -/
def CardInvariant (s : CardState) : Prop :=
  (s.parameterCards.map (fun c => c.id)).Nodup ∧
  ∀ c ∈ s.parameterCards, c.id < s.nextCardId

instance (s : CardState) : Decidable (CardInvariant s) := by
  unfold CardInvariant; infer_instance

/-! ## Actor trees

Modelled from the spec: the backend generation scripts are not part of the
available sources, so the Actor data model follows §3 of the specification
(name, description, type, depth, parameters, children, and the error flag a
skipped node carries). -/

/-- Value type of an actor parameter (§3: `value_type ∈ {float,int,bool,string}`). -/
inductive ValueType where
  | float : ValueType
  | int : ValueType
  | bool : ValueType
  | string : ValueType
deriving Repr, DecidableEq

/-- An actor parameter record (§3 `Parameter`). -/
structure ParamRecord where
  code_name : String
  display_name : String
  description : String
  value_type : ValueType
  expected_value_range : String
deriving Repr, DecidableEq

/-- A node of the actor influence tree (§3 `Actor`). -/
inductive ActorNode where
  | mk (name description type : String) (depth : Nat)
       (parameters : List ParamRecord) (children : List ActorNode)
       (errorFlag : Bool) : ActorNode
deriving Repr

/-- Name of an actor node. -/
def ActorNode.name : ActorNode → String
  | .mk n _ _ _ _ _ _ => n

/-- Description of an actor node. -/
def ActorNode.description : ActorNode → String
  | .mk _ d _ _ _ _ _ => d

/-- Type label of an actor node. -/
def ActorNode.type : ActorNode → String
  | .mk _ _ t _ _ _ _ => t

/-- Depth of an actor node. -/
def ActorNode.depth : ActorNode → Nat
  | .mk _ _ _ d _ _ _ => d

/-- Parameters of an actor node. -/
def ActorNode.parameters : ActorNode → List ParamRecord
  | .mk _ _ _ _ ps _ _ => ps

/-- Children of an actor node. -/
def ActorNode.children : ActorNode → List ActorNode
  | .mk _ _ _ _ _ cs _ => cs

/-- Error flag of an actor node (set when its expansion was skipped). -/
def ActorNode.errorFlag : ActorNode → Bool
  | .mk _ _ _ _ _ _ f => f

/-- Replace the children of a node. -/
def ActorNode.withChildren (node : ActorNode) (cs : List ActorNode) : ActorNode :=
  match node with
  | .mk n d t dep ps _ f => .mk n d t dep ps cs f

/-- Turn a node into the childless error leaf the skip-on-error policy
produces (§7 `NodeExhaustedError`). -/
def ActorNode.asErrorLeaf (node : ActorNode) : ActorNode :=
  match node with
  | .mk n d t dep ps _ _ => .mk n d t dep ps [] true

/-- Depth invariant bounded by a target: the node sits at depth at most
`target`, and every child is exactly one level deeper than its parent,
recursively. -/
inductive DepthInvariant (target : Nat) : ActorNode → Prop where
  | mk {node : ActorNode} :
      node.depth ≤ target →
      (∀ c ∈ node.children, c.depth = node.depth + 1) →
      (∀ c ∈ node.children, DepthInvariant target c) →
      DepthInvariant target node

/-! ## RetryController

Modelled from the spec (§4.4): the retry state machine is not part of the
available sources.  One attempt asks a provider for `breadth` children; a
truncated response halves the requested breadth (flooring at 1), a schema
failure reinforces the prompt, a transient failure moves to the fallback
provider, and the attempt budget bounds the number of attempts. -/

/-- A draft child actor returned by a successful provider call. -/
structure ChildDraft where
  name : String
  description : String
  type : String
deriving Repr, DecidableEq

/-- Outcome of a single provider call, as classified by ResponseValidator
(§4.3) and the provider error taxonomy (§7). -/
inductive ProviderResponse where
  | success (children : List ChildDraft) : ProviderResponse
  | truncated : ProviderResponse
  | schemaFail : ProviderResponse
  | connectionError : ProviderResponse
  | rateLimit : ProviderResponse
deriving Repr, DecidableEq

/-- Mutable attempt state of the RetryController: requested breadth, index of
the provider currently tried, and whether the prompt has been reinforced. -/
structure AttemptState where
  breadth : Nat
  providerIdx : Nat
  reinforced : Bool
deriving Repr, DecidableEq

/-- State transition of the RetryController after a failed attempt (§4.4):
truncation halves the breadth flooring at 1, a schema failure reinforces the
prompt, a transient failure falls back to the next provider. -/
def nextAttemptState (st : AttemptState) : ProviderResponse → AttemptState
  | .truncated => { st with breadth := Nat.max 1 (st.breadth / 2) }
  | .schemaFail => { st with reinforced := true }
  | .connectionError => { st with providerIdx := st.providerIdx + 1 }
  | .rateLimit => { st with providerIdx := st.providerIdx + 1 }
  | .success _ => st

/-- Run the RetryController against a provider stub (attempt index →
response) with the given attempt budget.  Returns the list of breadths
requested by the successive attempts and, on success, the drafted children;
`none` is the terminal `NodeExhaustedError`. -/
def retryExpand (stub : Nat → ProviderResponse) :
    Nat → Nat → AttemptState → List Nat × Option (List ChildDraft)
  | 0, _, _ => ([], none)
  | budget + 1, idx, st =>
    match stub idx with
    | .success kids => ([st.breadth], some kids)
    | r =>
      let rest := retryExpand stub budget (idx + 1) (nextAttemptState st r)
      (st.breadth :: rest.1, rest.2)

/-- Breadths requested across the attempts of one node expansion, starting
from the configured branching factor. -/
def requestedBreadths (stub : Nat → ProviderResponse) (budget breadth : Nat) : List Nat :=
  (retryExpand stub budget 0 ⟨breadth, 0, false⟩).1

/-- Breadth sequence produced by a provider that truncates every response:
each attempt requests half the previous breadth, flooring at 1. -/
def halvedSeq : Nat → Nat → List Nat
  | 0, _ => []
  | budget + 1, b => b :: halvedSeq budget (Nat.max 1 (b / 2))

/-! ## TreeOrchestrator

Modelled from the spec (§4.6, §7, §8): the orchestrator script is not part of
the available sources.  Each actor of a level is expanded through the
RetryController; a node whose retry budget is exhausted becomes a childless
leaf with the error flag when `skip_on_error` is set, and aborts the run
otherwise. -/

/-- Per-level generation statistics (§4.6 `generation_stats`). -/
structure GenStats where
  total_actors : Nat
  total_children : Nat
  actors_with_children : Nat
  avg_children_per_actor : ℚ
  successful : Nat
  failed : Nat
deriving Repr, DecidableEq

/-- Terminal status of a generation run (§6 control surface). -/
inductive RunStatus where
  | completed : RunStatus
  | failed : RunStatus
deriving Repr, DecidableEq

/-- Turn a validated draft into a child node of `parent`: one level deeper
than its parent, childless, without error flag. -/
def mkChild (parent : ActorNode) (draft : ChildDraft) : ActorNode :=
  .mk draft.name draft.description draft.type (parent.depth + 1) [] [] false

/-- Expand one node through the RetryController.  On success the node gets
the drafted children; on exhaustion it becomes the skip leaf.  The boolean
reports success. -/
def processNode (stub : Nat → ProviderResponse) (budget breadth : Nat)
    (parent : ActorNode) : ActorNode × Bool :=
  match (retryExpand stub budget 0 ⟨breadth, 0, false⟩).2 with
  | some kids => (parent.withChildren (kids.map (mkChild parent)), true)
  | none => (parent.asErrorLeaf, false)

/-- Process the actors of one level in order, applying the skip-on-error
policy: with `skipOnError` a failed node is kept as an error leaf, without it
the first failure stops the level (in-flight results are kept and persisted,
§4.6).  Returns the processed actors, the numbers of successes and failures,
and the run status. -/
def processLevel (stub : Nat → ProviderResponse) (budget breadth : Nat)
    (skipOnError : Bool) : List ActorNode → List ActorNode × Nat × Nat × RunStatus
  | [] => ([], 0, 0, .completed)
  | parent :: rest =>
    match processNode stub budget breadth parent with
    | (node, true) =>
      let (nodes, ok, fail, status) := processLevel stub budget breadth skipOnError rest
      (node :: nodes, ok + 1, fail, status)
    | (node, false) =>
      if skipOnError then
        let (nodes, ok, fail, status) := processLevel stub budget breadth skipOnError rest
        (node :: nodes, ok, fail + 1, status)
      else
        ([node], 0, 1, .failed)

/-- Statistics of a processed level (§4.6 `generation_stats`). -/
def statsOf (actors : List ActorNode) (ok fail : Nat) : GenStats :=
  let totalChildren := (actors.map (fun a => a.children.length)).sum
  { total_actors := actors.length
    total_children := totalChildren
    actors_with_children := (actors.filter (fun a => !a.children.isEmpty)).length
    avg_children_per_actor :=
      if actors.length = 0 then 0 else (totalChildren : ℚ) / (actors.length : ℚ)
    successful := ok
    failed := fail }

/-- Generate one level (§4.6 `GenerateLevel`): process every actor of the
previous level and aggregate the statistics. -/
def generateLevel (stub : Nat → ProviderResponse) (budget breadth : Nat)
    (skipOnError : Bool) (parents : List ActorNode) :
    List ActorNode × GenStats × RunStatus :=
  let (actors, ok, fail, status) := processLevel stub budget breadth skipOnError parents
  (actors, statsOf actors ok fail, status)

/-- Expand a node recursively down to the configured target depth: each level
of children is produced by the RetryController and one level deeper than its
parent (§2 data flow, with the per-level barrier flattened into structural
recursion on the remaining depth). -/
def expandTree (stub : Nat → ProviderResponse) (budget breadth : Nat) :
    Nat → ActorNode → ActorNode
  | 0, node => node
  | remaining + 1, node =>
    match (retryExpand stub budget 0 ⟨breadth, 0, false⟩).2 with
    | some kids =>
      node.withChildren ((kids.map (mkChild node)).map
        (expandTree stub budget breadth remaining))
    | none => node.asErrorLeaf

/-! ## CostLedger

Modelled from the spec (§4.5, §3 `CostSession`): the cost-tracking module
`llm.py` is not part of the available sources.  The ledger accumulates one
record per API call into per-provider and per-model buckets alongside the
session totals. -/

/-- Token totals of one bucket. -/
structure TokenTriple where
  input : Nat
  output : Nat
  total : Nat
deriving Repr, DecidableEq

/-- Per-model accumulator of the cost session. -/
structure ModelStats where
  cost : ℚ
  calls : Nat
  tokens : TokenTriple
deriving Repr, DecidableEq

/-- Per-provider accumulator of the cost session. -/
structure ProviderStats where
  cost : ℚ
  calls : Nat
  models : List (String × ModelStats)
  tokens : TokenTriple
deriving Repr, DecidableEq

/-- The cost session (§3 `CostSession`): run totals plus the per-provider
breakdown. -/
structure CostSession where
  total_cost : ℚ
  api_calls : Nat
  input_tokens : Nat
  output_tokens : Nat
  total_tokens : Nat
  providers : List (String × ProviderStats)
deriving Repr, DecidableEq

/-- The empty session created at run start. -/
def emptySession : CostSession := ⟨0, 0, 0, 0, 0, []⟩

/-- Add one call to the per-model buckets, inserting a fresh bucket for an
unseen model. -/
def updateModels (model : String) (inTok outTok : Nat) (cost : ℚ) :
    List (String × ModelStats) → List (String × ModelStats)
  | [] => [(model, ⟨cost, 1, ⟨inTok, outTok, inTok + outTok⟩⟩)]
  | (m, st) :: rest =>
    if m = model then
      (m, ⟨st.cost + cost, st.calls + 1,
           ⟨st.tokens.input + inTok, st.tokens.output + outTok,
            st.tokens.total + (inTok + outTok)⟩⟩) :: rest
    else
      (m, st) :: updateModels model inTok outTok cost rest

/-- Add one call to the per-provider buckets, inserting a fresh bucket for an
unseen provider. -/
def updateProviders (provider model : String) (inTok outTok : Nat) (cost : ℚ) :
    List (String × ProviderStats) → List (String × ProviderStats)
  | [] => [(provider, ⟨cost, 1, [(model, ⟨cost, 1, ⟨inTok, outTok, inTok + outTok⟩⟩)],
            ⟨inTok, outTok, inTok + outTok⟩⟩)]
  | (p, st) :: rest =>
    if p = provider then
      (p, ⟨st.cost + cost, st.calls + 1, updateModels model inTok outTok cost st.models,
           ⟨st.tokens.input + inTok, st.tokens.output + outTok,
            st.tokens.total + (inTok + outTok)⟩⟩) :: rest
    else
      (p, st) :: updateProviders provider model inTok outTok cost rest

/-- Record one API call in the session (§4.5 `Record`): every total and the
matching provider and model buckets are incremented once. -/
def recordCall (s : CostSession) (provider model : String) (inTok outTok : Nat)
    (cost : ℚ) : CostSession :=
  { total_cost := s.total_cost + cost
    api_calls := s.api_calls + 1
    input_tokens := s.input_tokens + inTok
    output_tokens := s.output_tokens + outTok
    total_tokens := s.total_tokens + (inTok + outTok)
    providers := updateProviders provider model inTok outTok cost s.providers }

/-- One API call as recorded by the ledger. -/
structure CallRecord where
  provider : String
  model : String
  inputTokens : Nat
  outputTokens : Nat
  cost : ℚ
deriving Repr, DecidableEq

/-- Replay a list of call records into a session, starting from the empty
session of a fresh run. -/
def replayLedger (calls : List CallRecord) : CostSession :=
  calls.foldl (fun s c => recordCall s c.provider c.model c.inputTokens c.outputTokens c.cost)
    emptySession

/-- Additive consistency of a session: the session totals equal the sums of
the per-provider buckets, each provider's cost equals the sum of its
per-model buckets, and the token total is the sum of input and output. -/
def SessionConsistent (s : CostSession) : Prop :=
  s.total_cost = ((s.providers.map (fun pr => pr.2.cost)).sum) ∧
  s.api_calls = ((s.providers.map (fun pr => pr.2.calls)).sum) ∧
  (∀ pr ∈ s.providers, pr.2.cost = ((pr.2.models.map (fun m => m.2.cost)).sum)) ∧
  s.total_tokens = s.input_tokens + s.output_tokens

/-! ## Consistency checks on the persisted cost_tracking metadata -/

/-- Sum of the numeric field `key` over the members of a JSON object given by
its field list; `none` if any member lacks the field. -/
def sumField (key : String) : List (String × Json) → Option DecNum
  | [] => some DecNum.zero
  | (_, v) :: rest =>
    match (v.lookup key).bind Json.asNum, sumField key rest with
    | some c, some s => some (c.add s)
    | _, _ => none

/-- A provider bucket of the persisted metadata is model-consistent when its
`cost` equals the sum of the `cost` fields of its `models`. -/
def providerModelsConsistent (v : Json) : Bool :=
  match (v.lookup "cost").bind Json.asNum, v.lookup "models" with
  | some c, some (.obj ms) =>
    match sumField "cost" ms with
    | some s => DecNum.beq s c
    | none => false
  | _, _ => false

/-- Additive consistency of a persisted `cost_tracking` object: `total_cost`
is the sum of the provider costs, `api_calls` the sum of the provider call
counts, every provider's cost the sum of its model costs, and
`tokens_used.total_tokens` the sum of input and output tokens. -/
def costTrackingConsistent (ct : Json) : Bool :=
  match ct.lookup "providers" with
  | some (.obj ps) =>
    (match ct.numAt ["total_cost"], sumField "cost" ps with
     | some t, some s => DecNum.beq t s
     | _, _ => false) &&
    (match ct.numAt ["api_calls"], sumField "calls" ps with
     | some t, some s => DecNum.beq t s
     | _, _ => false) &&
    ps.all (fun pv => providerModelsConsistent pv.2) &&
    (match ct.numAt ["tokens_used", "input_tokens"],
           ct.numAt ["tokens_used", "output_tokens"],
           ct.numAt ["tokens_used", "total_tokens"] with
     | some i, some o, some t => DecNum.beq (i.add o) t
     | _, _, _ => false)
  | _ => false

/-! ## Artifact schema checks for the depth and schema claims -/

/-- Check, over the top-level actor records of a persisted artifact, the
claimed depth relation: every actor record carries a numeric `depth` field,
and in a level-0 artifact that depth is 0. -/
def claimedDepthFieldCheck (doc : Json) : Bool :=
  match doc.path ["metadata", "level"], doc.lookup "actors" with
  | some (.num lvl), some (.arr actors) =>
    actors.all (fun a =>
      match a.lookup "depth" with
      | some (.num d) => if DecNum.beq lvl DecNum.zero then DecNum.beq d DecNum.zero else true
      | _ => false)
  | _, _ => false

/-- Check (with a recursion fuel that only needs to exceed the nesting depth
of the document) that an actor record and all its `sub_actors` descendants
carry no `depth` field. -/
def actorNoDepthB : Nat → Json → Bool
  | 0, _ => false
  | fuel + 1, a =>
    (a.lookup "depth").isNone &&
    (match a.lookup "sub_actors" with
     | some (.arr xs) => xs.all (actorNoDepthB fuel)
     | _ => true)

/-- Check that an actor record follows the section-6 schema of the claim: it
has string `name`, `description` and `type` fields, a numeric `depth`, a
`parameters` array and a recursive `children` array. -/
def actorSection6B : Nat → Json → Bool
  | 0, _ => false
  | fuel + 1, a =>
    (match a.lookup "name" with | some (.str _) => true | _ => false) &&
    (match a.lookup "description" with | some (.str _) => true | _ => false) &&
    (match a.lookup "type" with | some (.str _) => true | _ => false) &&
    (match a.lookup "depth" with | some (.num _) => true | _ => false) &&
    (match a.lookup "parameters" with | some (.arr _) => true | _ => false) &&
    (match a.lookup "children" with
     | some (.arr xs) => xs.all (actorSection6B fuel)
     | _ => false)

/-- The generation_stats keys required by the section-6 schema of the claim. -/
def statsKeysClaimed : List String :=
  ["total_actors", "total_children", "actors_with_children",
   "avg_children_per_actor", "successful", "failed"]

/-- The generation_stats keys actually used by the persisted artifacts. -/
def statsKeysActual : List String :=
  ["total_main_actors", "total_subactors", "actors_with_subactors",
   "avg_subactors_per_actor", "successful_actors", "failed_actors"]

/-- Conformance of a persisted level artifact to the section-6 schema as
stated by the claim: an integer `total_count` at top level, a
`metadata.generation_stats` object with exactly the six claimed keys, and
every actor record following the section-6 actor schema. -/
def conformsSection6B (fuel : Nat) (doc : Json) : Bool :=
  (match doc.lookup "total_count" with | some (.num _) => true | _ => false) &&
  (match doc.path ["metadata", "generation_stats"] with
   | some gs =>
     statsKeysClaimed.all (fun k => (gs.lookup k).isSome) &&
     gs.keys.all (fun k => statsKeysClaimed.contains k)
   | none => false) &&
  (match doc.lookup "actors" with
   | some (.arr xs) => xs.all (actorSection6B fuel)
   | _ => false)

/-- Check that an actor record follows the shape the persisted artifacts
actually use: string `name`, `description` and `type` fields and a recursive
`sub_actors` array. -/
def actorLegacyShapeB : Nat → Json → Bool
  | 0, _ => false
  | fuel + 1, a =>
    (match a.lookup "name" with | some (.str _) => true | _ => false) &&
    (match a.lookup "description" with | some (.str _) => true | _ => false) &&
    (match a.lookup "type" with | some (.str _) => true | _ => false) &&
    (match a.lookup "sub_actors" with
     | some (.arr xs) => xs.all (actorLegacyShapeB fuel)
     | none => true
     | _ => false)

/-! ## RunStore

Modelled from the spec (§4.7, §6): the run-folder bookkeeping and the level
persistence functions are not part of the available sources.  A run folder is
named `run_<date>_<N>` with a per-day counter that only ever increments. -/

/-- Decimal digits of a natural number, most significant first, with a fuel
argument bounding the recursion depth. -/
def natDecimalAux : Nat → Nat → List Char
  | 0, _ => []
  | fuel + 1, n =>
    if n < 10 then [Nat.digitChar n]
    else natDecimalAux fuel (n / 10) ++ [Nat.digitChar (n % 10)]

/-- Decimal digits of a natural number, most significant first. -/
def natDecimalChars (n : Nat) : List Char := natDecimalAux (n + 1) n

/-- Decimal rendering of a natural number. -/
def natDecimal (n : Nat) : String := ⟨natDecimalChars n⟩

/-- Numeric value of a decimal digit character. -/
def decCharVal (c : Char) : Nat := c.toNat - 48

/-- Parse a digit string back into a natural number. -/
def parseDecimal (cs : List Char) : Nat :=
  cs.foldl (fun a c => a * 10 + decCharVal c) 0

/-- Name of a run folder: `run_<date>_<N>` (§6 run-folder naming). -/
def runFolderName (date : String) (n : Nat) : String :=
  "run_" ++ date ++ "_" ++ natDecimal n

/-- State of the RunStore: the last run number allocated for each date. -/
structure RunStoreState where
  counters : String → Nat

/-- Allocate the next run folder for a date (§4.7 `AllocateRunFolder`): the
per-day counter is incremented and embedded in the folder name, so the first
run of a day is `run_<date>_1`. -/
def allocateRunFolder (st : RunStoreState) (date : String) : String × RunStoreState :=
  let n := st.counters date + 1
  (runFolderName date n, ⟨fun d => if d = date then n else st.counters d⟩)

/-- Names returned by `k` successive `AllocateRunFolder` calls on one date. -/
def allocateMany (st : RunStoreState) (date : String) : Nat → List String
  | 0 => []
  | k + 1 =>
    let (name, st') := allocateRunFolder st date
    name :: allocateMany st' date k

/-! ## Level serialization and loading

Modelled from the spec (§4.7 `SaveLevel`/`LoadLevel`, §6 artifact schema):
the persistence functions are not part of the available sources.  A level is
serialized to the section-6 JSON document (with the `error_flag` a skipped
node carries, §7); `LoadLevel` parses that document back. -/

/-- Serialize a parameter value type. -/
def encodeValueType : ValueType → String
  | .float => "float"
  | .int => "int"
  | .bool => "bool"
  | .string => "string"

/-- Parse a parameter value type. -/
def decodeValueType : String → Option ValueType
  | "float" => some .float
  | "int" => some .int
  | "bool" => some .bool
  | "string" => some .string
  | _ => none

/-- Serialize one actor parameter record. -/
def encodeParam (p : ParamRecord) : Json :=
  .obj [("code_name", .str p.code_name),
        ("display_name", .str p.display_name),
        ("description", .str p.description),
        ("value_type", .str (encodeValueType p.value_type)),
        ("expected_value_range", .str p.expected_value_range)]

/-- Parse one actor parameter record. -/
def decodeParam : Json → Option ParamRecord
  | .obj [("code_name", .str cn), ("display_name", .str dn),
          ("description", .str de), ("value_type", .str vt),
          ("expected_value_range", .str ev)] =>
    (decodeValueType vt).map (fun v => ⟨cn, dn, de, v, ev⟩)
  | _ => none

/-- Parse a list of actor parameter records. -/
def decodeParams : List Json → Option (List ParamRecord)
  | [] => some []
  | x :: xs =>
    match decodeParam x, decodeParams xs with
    | some p, some ps => some (p :: ps)
    | _, _ => none

/-- Serialize an actor node to its section-6 JSON record. -/
def encodeActor : ActorNode → Json
  | .mk n d t dep ps cs f =>
    .obj [("name", .str n),
          ("description", .str d),
          ("type", .str t),
          ("depth", .num ⟨(dep : Int), 0⟩),
          ("parameters", .arr (ps.map encodeParam)),
          ("children", .arr (cs.attach.map (fun c => encodeActor c.1))),
          ("error_flag", .bool f)]
decreasing_by
  simp only [ActorNode.mk.sizeOf_spec]
  have := List.sizeOf_lt_of_mem c.2
  omega

mutual

/-- Parse a section-6 actor record. -/
def decodeActor : Json → Option ActorNode
  | .obj [("name", .str n), ("description", .str d), ("type", .str t),
          ("depth", .num ⟨.ofNat dep, 0⟩), ("parameters", .arr ps),
          ("children", .arr cs), ("error_flag", .bool f)] =>
    match decodeParams ps, decodeActors cs with
    | some ps', some cs' => some (.mk n d t dep ps' cs' f)
    | _, _ => none
  | _ => none

/-- Parse a list of section-6 actor records. -/
def decodeActors : List Json → Option (List ActorNode)
  | [] => some []
  | x :: xs =>
    match decodeActor x, decodeActors xs with
    | some a, some rest => some (a :: rest)
    | _, _ => none

end

/-- Serialize a generated level to its persisted JSON document (§6): the
metadata object, the serialized actors and the top-level `total_count`. -/
def saveLevelDoc (meta : Json) (actors : List ActorNode) : Json :=
  .obj [("metadata", meta),
        ("actors", .arr (actors.map encodeActor)),
        ("total_count", .num ⟨(actors.length : Int), 0⟩)]

/-- Load the actors of a persisted level document (§4.7 `LoadLevel`). -/
def loadLevel (doc : Json) : Option (List ActorNode) :=
  match doc.lookup "actors" with
  | some (.arr xs) => decodeActors xs
  | _ => none

/-! ## Concrete scenario inputs (§8) -/

/-- A level-0 root actor with the given name (depth 0, no children). -/
def rootActor (name : String) : ActorNode := .mk name "" "" 0 [] [] false

/-- Provider stub that fails every call with a connection error. -/
def connFailStub : Nat → ProviderResponse := fun _ => .connectionError

/-- Provider stub that truncates every response. -/
def truncStub : Nat → ProviderResponse := fun _ => .truncated

/-! ## Theorems: frontend card handlers (C8, C9, C10) -/

theorem formatParameterValue_isSome_of_info {parameterId : String}
    (h : (getParameterInfo parameterId).isSome) (value : Nat) :
    (formatParameterValue value parameterId).isSome := by
  unfold formatParameterValue
  split
  · rfl
  · simpa using h

/-- C8: `getParameterInfo` is total — it returns the first matching entry of
`worldModelParameters` when one exists and falls back to the table's first
entry (the `population` record) otherwise, so `formatParameterValue` never
reads a field of `undefined`; the table is non-empty. -/
theorem c8_getParameterInfo_total (parameterId : String) :
    worldModelParameters ≠ [] ∧
    ∃ p, getParameterInfo parameterId = some p ∧ p ∈ worldModelParameters ∧
      ((∃ q ∈ worldModelParameters, q.id = parameterId) → p.id = parameterId) ∧
      ((¬ ∃ q ∈ worldModelParameters, q.id = parameterId) → p.id = "population") ∧
      ∀ value : Nat, (formatParameterValue value parameterId).isSome := by
  refine ⟨by decide, ?_⟩
  match h : worldModelParameters.find? (fun p => p.id == parameterId) with
  | some q =>
    have hinfo : getParameterInfo parameterId = some q := by
      unfold getParameterInfo; rw [h]; rfl
    have hmem : q ∈ worldModelParameters := List.mem_of_find?_eq_some h
    have hid : q.id = parameterId := by
      have := List.find?_some h
      simpa using this
    exact ⟨q, hinfo, hmem, fun _ => hid,
      fun hno => absurd ⟨q, hmem, hid⟩ hno,
      fun v => formatParameterValue_isSome_of_info (by rw [hinfo]; rfl) v⟩
  | none =>
    have hinfo : getParameterInfo parameterId =
        some ⟨"population", "Population", 0, 15000000000, 1000000, "people"⟩ := by
      unfold getParameterInfo; rw [h]; rfl
    refine ⟨_, hinfo, by decide, ?_, fun _ => rfl,
      fun v => formatParameterValue_isSome_of_info (by rw [hinfo]; rfl) v⟩
    rintro ⟨q, hqmem, hqid⟩
    have := List.find?_eq_none.mp h q hqmem
    simp [hqid] at this

/-- Witness for C8 at the parameter ids `"economy"` (present in the table)
and `"unknown_parameter"` (absent from the table). -/
theorem c8_witness :
    (worldModelParameters ≠ [] ∧
     ∃ p, getParameterInfo "economy" = some p ∧ p ∈ worldModelParameters ∧
       ((∃ q ∈ worldModelParameters, q.id = "economy") → p.id = "economy") ∧
       ((¬ ∃ q ∈ worldModelParameters, q.id = "economy") → p.id = "population") ∧
       ∀ value : Nat, (formatParameterValue value "economy").isSome) ∧
    (worldModelParameters ≠ [] ∧
     ∃ p, getParameterInfo "unknown_parameter" = some p ∧ p ∈ worldModelParameters ∧
       ((∃ q ∈ worldModelParameters, q.id = "unknown_parameter") → p.id = "unknown_parameter") ∧
       ((¬ ∃ q ∈ worldModelParameters, q.id = "unknown_parameter") → p.id = "population") ∧
       ∀ value : Nat, (formatParameterValue value "unknown_parameter").isSome) :=
  ⟨c8_getParameterInfo_total "economy", c8_getParameterInfo_total "unknown_parameter"⟩

theorem card_update_map_id (cards : List ParameterCard) (cid : Nat)
    (upd : ParameterCard → ParameterCard) (h : ∀ c, (upd c).id = c.id) :
    ((cards.map (fun c => if c.id == cid then upd c else c)).map (fun c => c.id)) =
      cards.map (fun c => c.id) := by
  rw [List.map_map]
  refine List.map_congr_left (fun c _ => ?_)
  by_cases hc : c.id = cid
  · simp [Function.comp, beq_iff_eq, hc, h]
  · simp [Function.comp, beq_iff_eq, hc]

theorem cardInvariant_map_update {s : CardState} (h : CardInvariant s) (cid : Nat)
    (upd : ParameterCard → ParameterCard) (hid : ∀ c, (upd c).id = c.id) :
    CardInvariant ⟨s.parameterCards.map
      (fun c => if c.id == cid then upd c else c), s.nextCardId⟩ := by
  obtain ⟨hnodup, hbound⟩ := h
  constructor
  · show ((s.parameterCards.map _).map _).Nodup
    rw [card_update_map_id s.parameterCards cid upd hid]
    exact hnodup
  · intro c hc
    simp only [List.mem_map] at hc
    obtain ⟨c0, hc0, rfl⟩ := hc
    by_cases h0 : c0.id == cid
    · simpa [h0, hid] using hbound c0 hc0
    · simpa [h0] using hbound c0 hc0

/-- C9: the four parameter-card handlers preserve the card-list invariant —
card ids are pairwise distinct and strictly below `nextCardId` — and none of
them decreases `nextCardId`, so a removed card's id is never reused. -/
theorem c9_card_handlers_preserve_invariant (s : CardState) (h : CardInvariant s)
    (cid v : Nat) (pid : String) :
    (CardInvariant (handleAddParameterCard s) ∧
      s.nextCardId ≤ (handleAddParameterCard s).nextCardId ∧
      (∃ c ∈ (handleAddParameterCard s).parameterCards, c.id = s.nextCardId)) ∧
    (CardInvariant (handleRemoveParameterCard cid s) ∧
      s.nextCardId ≤ (handleRemoveParameterCard cid s).nextCardId) ∧
    (CardInvariant (handleParameterCardChange cid pid s) ∧
      s.nextCardId ≤ (handleParameterCardChange cid pid s).nextCardId) ∧
    (CardInvariant (handleCardSliderChange cid v s) ∧
      s.nextCardId ≤ (handleCardSliderChange cid v s).nextCardId) := by
  obtain ⟨hnodup, hbound⟩ := h
  refine ⟨⟨⟨?_, ?_⟩, Nat.le_succ _, ?_⟩, ⟨⟨?_, ?_⟩, le_refl _⟩, ?_, ?_⟩
  · -- add: ids stay pairwise distinct
    rw [handleAddParameterCard]
    simp only [List.map_append, List.map_cons, List.map_nil]
    refine hnodup.append (List.nodup_singleton _) ?_
    intro a ha hamem
    simp only [List.mem_map] at ha
    obtain ⟨c0, hc0, rfl⟩ := ha
    simp only [List.mem_singleton] at hamem
    exact absurd hamem (Nat.ne_of_lt (hbound c0 hc0))
  · -- add: ids stay below the incremented counter
    rw [handleAddParameterCard]
    intro c hc
    rcases List.mem_append.mp hc with hc | hc
    · exact Nat.lt_succ_of_lt (hbound c hc)
    · simp only [List.mem_singleton] at hc
      subst hc
      exact Nat.lt_succ_self _
  · -- add: the fresh card carries the old counter as id
    exact ⟨_, List.mem_append_right _ (List.mem_singleton_self _), rfl⟩
  · -- remove: a sublist of distinct ids is distinct
    rw [handleRemoveParameterCard]
    exact hnodup.sublist (List.Sublist.map _ (List.filter_sublist _))
  · -- remove: bounds carry over from the original list
    rw [handleRemoveParameterCard]
    intro c hc
    exact hbound c (List.mem_of_mem_filter hc)
  · -- parameter change: an id-preserving per-card update
    exact ⟨cardInvariant_map_update ⟨hnodup, hbound⟩ cid _ (fun c => rfl), le_refl _⟩
  · -- slider change: an id-preserving per-card update
    exact ⟨cardInvariant_map_update ⟨hnodup, hbound⟩ cid _ (fun c => rfl), le_refl _⟩

/-- Witness for C9: the state reached by adding one card to the empty state,
with a removal id, a slider value and a parameter id. -/
theorem c9_witness :
    (CardInvariant (handleAddParameterCard ⟨[⟨1, "population", 50, 0⟩], 2⟩) ∧
      (2 : Nat) ≤ (handleAddParameterCard ⟨[⟨1, "population", 50, 0⟩], 2⟩).nextCardId ∧
      (∃ c ∈ (handleAddParameterCard ⟨[⟨1, "population", 50, 0⟩], 2⟩).parameterCards, c.id = 2)) ∧
    (CardInvariant (handleRemoveParameterCard 1 ⟨[⟨1, "population", 50, 0⟩], 2⟩) ∧
      (2 : Nat) ≤ (handleRemoveParameterCard 1 ⟨[⟨1, "population", 50, 0⟩], 2⟩).nextCardId) ∧
    (CardInvariant (handleParameterCardChange 1 "economy" ⟨[⟨1, "population", 50, 0⟩], 2⟩) ∧
      (2 : Nat) ≤ (handleParameterCardChange 1 "economy" ⟨[⟨1, "population", 50, 0⟩], 2⟩).nextCardId) ∧
    (CardInvariant (handleCardSliderChange 1 75 ⟨[⟨1, "population", 50, 0⟩], 2⟩) ∧
      (2 : Nat) ≤ (handleCardSliderChange 1 75 ⟨[⟨1, "population", 50, 0⟩], 2⟩).nextCardId) :=
  c9_card_handlers_preserve_invariant ⟨[⟨1, "population", 50, 0⟩], 2⟩ (by decide) 1 75 "economy"

/-- C10: `handleRemoveParameterCard` removes exactly the cards whose id
equals the given id, keeps every other card (with all its fields) in its
original relative order, leaves the list unchanged when no card matches, and
does not touch `nextCardId`. -/
theorem c10_remove_card_frame (s : CardState) (cid : Nat) :
    (∀ c, c ∈ (handleRemoveParameterCard cid s).parameterCards ↔
        c ∈ s.parameterCards ∧ c.id ≠ cid) ∧
    (handleRemoveParameterCard cid s).parameterCards.Sublist s.parameterCards ∧
    ((∀ c ∈ s.parameterCards, c.id ≠ cid) →
      (handleRemoveParameterCard cid s).parameterCards = s.parameterCards) ∧
    (handleRemoveParameterCard cid s).nextCardId = s.nextCardId := by
  refine ⟨fun c => ?_, List.filter_sublist _, fun hall => ?_, rfl⟩
  · rw [handleRemoveParameterCard]
    simp [List.mem_filter]
  · rw [handleRemoveParameterCard]
    simp only
    exact List.filter_eq_self.mpr (fun c hc => by simpa using hall c hc)

/-- Witness for C10 on a two-card list, removing the id of the first card. -/
theorem c10_witness :
    (∀ c, c ∈ (handleRemoveParameterCard 1 ⟨[⟨1, "population", 50, 0⟩, ⟨2, "economy", 75, 1⟩], 3⟩).parameterCards ↔
        c ∈ (⟨[⟨1, "population", 50, 0⟩, ⟨2, "economy", 75, 1⟩], 3⟩ : CardState).parameterCards ∧ c.id ≠ 1) ∧
    (handleRemoveParameterCard 1 ⟨[⟨1, "population", 50, 0⟩, ⟨2, "economy", 75, 1⟩], 3⟩).parameterCards.Sublist
      (⟨[⟨1, "population", 50, 0⟩, ⟨2, "economy", 75, 1⟩], 3⟩ : CardState).parameterCards ∧
    ((∀ c ∈ (⟨[⟨1, "population", 50, 0⟩, ⟨2, "economy", 75, 1⟩], 3⟩ : CardState).parameterCards, c.id ≠ 1) →
      (handleRemoveParameterCard 1 ⟨[⟨1, "population", 50, 0⟩, ⟨2, "economy", 75, 1⟩], 3⟩).parameterCards =
        (⟨[⟨1, "population", 50, 0⟩, ⟨2, "economy", 75, 1⟩], 3⟩ : CardState).parameterCards) ∧
    (handleRemoveParameterCard 1 ⟨[⟨1, "population", 50, 0⟩, ⟨2, "economy", 75, 1⟩], 3⟩).nextCardId =
      (⟨[⟨1, "population", 50, 0⟩, ⟨2, "economy", 75, 1⟩], 3⟩ : CardState).nextCardId :=
  c10_remove_card_frame ⟨[⟨1, "population", 50, 0⟩, ⟨2, "economy", 75, 1⟩], 3⟩ 1

/-! ## Theorems: run-folder allocation (C5) -/

theorem decCharVal_digitChar : ∀ d : Nat, d < 10 → decCharVal (Nat.digitChar d) = d := by
  decide

theorem parseDecimal_append_digit (cs : List Char) (c : Char) :
    parseDecimal (cs ++ [c]) = parseDecimal cs * 10 + decCharVal c := by
  simp [parseDecimal, List.foldl_append]

theorem parseDecimal_natDecimalAux :
    ∀ fuel n, n < fuel → parseDecimal (natDecimalAux fuel n) = n := by
  intro fuel
  induction fuel with
  | zero => intro n h; omega
  | succ fuel ih =>
    intro n h
    rw [natDecimalAux]
    by_cases h10 : n < 10
    · simp only [if_pos h10]
      simpa [parseDecimal] using decCharVal_digitChar n h10
    · simp only [if_neg h10]
      rw [parseDecimal_append_digit, ih (n / 10) (by omega),
        decCharVal_digitChar (n % 10) (by omega)]
      omega

theorem parseDecimal_natDecimalChars (n : Nat) :
    parseDecimal (natDecimalChars n) = n :=
  parseDecimal_natDecimalAux (n + 1) n (Nat.lt_succ_self n)


theorem string_data_inj {a b : String} (h : a.data = b.data) : a = b := by
  cases a; cases b; exact congrArg String.mk h

theorem natDecimal_injective : Function.Injective natDecimal := by
  intro a b h
  have hdata : natDecimalChars a = natDecimalChars b := congrArg String.data h
  have := congrArg parseDecimal hdata
  simpa [parseDecimal_natDecimalChars] using this

theorem runFolderName_injective (date : String) {a b : Nat}
    (h : runFolderName date a = runFolderName date b) : a = b := by
  have hdata := congrArg String.data h
  simp only [runFolderName, String.data_append] at hdata
  refine natDecimal_injective (string_data_inj ?_)
  simpa using hdata

theorem allocateMany_eq (date : String) :
    ∀ (k : Nat) (st : RunStoreState),
      allocateMany st date k =
        (List.range k).map (fun i => runFolderName date (st.counters date + 1 + i)) := by
  intro k
  induction k with
  | zero => intro st; rfl
  | succ k ih =>
    intro st
    rw [allocateMany, allocateRunFolder]
    simp only
    rw [ih, List.range_succ_eq_map, List.map_cons, List.map_map]
    refine congrArg₂ (· :: ·) (by norm_num) ?_
    refine List.map_congr_left fun i _ => ?_
    simp only [Function.comp, eq_self_iff_true, if_true]
    congr 1
    omega

/-- C5: run folders have the form `run_<date>_<N>` with a per-day counter
that is incremented on every allocation and never reused: `N` calls of
`AllocateRunFolder` on the same date return `N` pairwise-distinct folder
names, so no two runs of one day share a folder.  The folder name embedded in
the persisted level-0 artifact is the 18th run of 2025-07-16 under exactly
this naming scheme. -/
theorem c5_allocateRunFolder_distinct (st : RunStoreState) (date : String) (k : Nat) :
    (allocateMany st date k).length = k ∧
    (allocateMany st date k).Nodup ∧
    (∀ name ∈ allocateMany st date k, ∃ i, name = runFolderName date i) ∧
    runFolderName "2025-07-16" 18 = "run_2025-07-16_18" ∧
    level0Artifact.path ["metadata", "run_folder"] =
      some (Json.str (runFolderName "2025-07-16" 18)) := by
  refine ⟨?_, ?_, ?_, rfl, rfl⟩
  · rw [allocateMany_eq]; simp
  · rw [allocateMany_eq]
    refine List.Nodup.map ?_ (List.nodup_range k)
    intro i j hij
    have := runFolderName_injective date hij
    omega
  · rw [allocateMany_eq]
    intro name hname
    simp only [List.mem_map] at hname
    obtain ⟨i, _, rfl⟩ := hname
    exact ⟨_, rfl⟩

/-! ## Theorems: RetryController breadth reduction (C6) -/

theorem retryExpand_truncated (stub : Nat → ProviderResponse)
    (hstub : ∀ n, stub n = .truncated) :
    ∀ (budget idx : Nat) (st : AttemptState),
      retryExpand stub budget idx st = (halvedSeq budget st.breadth, none) := by
  intro budget
  induction budget with
  | zero => intro idx st; rfl
  | succ budget ih =>
    intro idx st
    rw [retryExpand, hstub idx]
    simp only [nextAttemptState, ih]
    rw [halvedSeq]

theorem halvedSeq_props :
    ∀ (budget b : Nat), 1 ≤ b →
      (halvedSeq budget b).length = budget ∧
      (∀ x ∈ halvedSeq budget b, 1 ≤ x) ∧
      List.Chain' (fun a c => c < a ∨ (a = 1 ∧ c = 1)) (halvedSeq budget b) := by
  intro budget
  induction budget with
  | zero =>
    intro b _
    rw [halvedSeq]
    exact ⟨rfl, by simp, List.chain'_nil⟩
  | succ budget ih =>
    intro b hb
    obtain ⟨ihlen, ihmem, ihchain⟩ := ih (Nat.max 1 (b / 2)) (Nat.le_max_left _ _)
    rw [halvedSeq]
    refine ⟨by simpa using ihlen, ?_, ?_⟩
    · intro x hx
      rcases List.mem_cons.mp hx with rfl | hx
      · exact hb
      · exact ihmem x hx
    · cases budget with
      | zero => simp [halvedSeq]
      | succ budget =>
        rw [halvedSeq]
        refine List.chain'_cons.mpr ⟨?_, by rw [halvedSeq] at ihchain; exact ihchain⟩
        rcases Nat.lt_or_ge b 2 with h2 | h2
        · have hb1 : b = 1 := by omega
          subst hb1
          right
          exact ⟨rfl, by decide⟩
        · left
          have hmax : Nat.max 1 (b / 2) = b / 2 := Nat.max_eq_right (by omega)
          omega

/-- Counterexample to C6: with attempt budget 2 and configured breadth 1 (the
smallest branching factor the configuration surface allows), a provider that
truncates every response makes the RetryController request breadth 1 twice in
a row, so the requested breadth is not strictly decreasing across attempts. -/
theorem c6_counterexample :
    requestedBreadths truncStub 2 1 = [1, 1] ∧
    ¬ List.Chain' (fun a c => c < a) (requestedBreadths truncStub 2 1) := by
  constructor
  · rfl
  · intro h
    rw [show requestedBreadths truncStub 2 1 = [1, 1] from rfl] at h
    have := (List.chain'_cons.mp h).1
    omega

/-- C6 (amended): against a provider stub that always truncates, the
RetryController performs exactly its attempt budget of attempts and then
terminates with `NodeExhaustedError` (it cannot loop, being structurally
recursive in the budget); every requested breadth stays at least 1, and the
breadth strictly decreases from one attempt to the next until it reaches the
floor 1, where it stays. -/
theorem c6_retry_breadth_floor (stub : Nat → ProviderResponse)
    (hstub : ∀ n, stub n = .truncated) (B b0 : Nat) (hb : 1 ≤ b0) :
    (retryExpand stub B 0 ⟨b0, 0, false⟩).2 = none ∧
    (requestedBreadths stub B b0).length = B ∧
    (∀ x ∈ requestedBreadths stub B b0, 1 ≤ x) ∧
    List.Chain' (fun a c => c < a ∨ (a = 1 ∧ c = 1)) (requestedBreadths stub B b0) := by
  have heq := retryExpand_truncated stub hstub B 0 ⟨b0, 0, false⟩
  have hprops := halvedSeq_props B b0 hb
  refine ⟨by rw [heq], ?_, ?_, ?_⟩ <;>
    · rw [requestedBreadths, heq]
      first
      | exact hprops.1
      | exact hprops.2.1
      | exact hprops.2.2

/-- Witness for C6 (amended) with budget 3 and configured breadth 4: the
attempts request breadths 4, 2, 1 and then the node is exhausted. -/
theorem c6_witness :
    (retryExpand truncStub 3 0 ⟨4, 0, false⟩).2 = none ∧
    (requestedBreadths truncStub 3 4).length = 3 ∧
    (∀ x ∈ requestedBreadths truncStub 3 4, 1 ≤ x) ∧
    List.Chain' (fun a c => c < a ∨ (a = 1 ∧ c = 1)) (requestedBreadths truncStub 3 4) :=
  c6_retry_breadth_floor truncStub (fun _ => rfl) 3 4 (by norm_num)

/-! ## Theorems: cost-ledger additivity (C4) -/

theorem updateModels_cost_sum (model : String) (inTok outTok : Nat) (cost : ℚ) :
    ∀ ms : List (String × ModelStats),
      ((updateModels model inTok outTok cost ms).map (fun m => m.2.cost)).sum =
        (ms.map (fun m => m.2.cost)).sum + cost := by
  intro ms
  induction ms with
  | nil => simp [updateModels]
  | cons head rest ih =>
    obtain ⟨m, st⟩ := head
    rw [updateModels]
    by_cases h : m = model
    · simp only [if_pos h, List.map_cons, List.sum_cons]
      ring
    · simp only [if_neg h, List.map_cons, List.sum_cons, ih]
      ring

theorem updateProviders_cost_sum (provider model : String) (inTok outTok : Nat) (cost : ℚ) :
    ∀ ps : List (String × ProviderStats),
      ((updateProviders provider model inTok outTok cost ps).map (fun pr => pr.2.cost)).sum =
        (ps.map (fun pr => pr.2.cost)).sum + cost := by
  intro ps
  induction ps with
  | nil => simp [updateProviders]
  | cons head rest ih =>
    obtain ⟨p, st⟩ := head
    rw [updateProviders]
    by_cases h : p = provider
    · simp only [if_pos h, List.map_cons, List.sum_cons]
      ring
    · simp only [if_neg h, List.map_cons, List.sum_cons, ih]
      ring

theorem updateProviders_calls_sum (provider model : String) (inTok outTok : Nat) (cost : ℚ) :
    ∀ ps : List (String × ProviderStats),
      ((updateProviders provider model inTok outTok cost ps).map (fun pr => pr.2.calls)).sum =
        (ps.map (fun pr => pr.2.calls)).sum + 1 := by
  intro ps
  induction ps with
  | nil => simp [updateProviders]
  | cons head rest ih =>
    obtain ⟨p, st⟩ := head
    rw [updateProviders]
    by_cases h : p = provider
    · simp only [if_pos h, List.map_cons, List.sum_cons]
      omega
    · simp only [if_neg h, List.map_cons, List.sum_cons, ih]
      omega

theorem updateProviders_models_consistent (provider model : String)
    (inTok outTok : Nat) (cost : ℚ) :
    ∀ ps : List (String × ProviderStats),
      (∀ pr ∈ ps, pr.2.cost = ((pr.2.models.map (fun m => m.2.cost)).sum)) →
      ∀ pr ∈ updateProviders provider model inTok outTok cost ps,
        pr.2.cost = ((pr.2.models.map (fun m => m.2.cost)).sum) := by
  intro ps
  induction ps with
  | nil =>
    intro _ pr hpr
    rw [updateProviders] at hpr
    simp only [List.mem_singleton] at hpr
    subst hpr
    simp
  | cons head rest ih =>
    obtain ⟨p, st⟩ := head
    intro hall pr hpr
    rw [updateProviders] at hpr
    by_cases h : p = provider
    · rw [if_pos h] at hpr
      rcases List.mem_cons.mp hpr with heq | hpr
      · have hhead := hall (p, st) (List.mem_cons_self _ _)
        subst heq
        simp only at hhead ⊢
        rw [updateModels_cost_sum, ← hhead]
      · exact hall pr (List.mem_cons_of_mem _ hpr)
    · rw [if_neg h] at hpr
      rcases List.mem_cons.mp hpr with heq | hpr
      · subst heq
        exact hall _ (List.mem_cons_self _ _)
      · exact ih (fun q hq => hall q (List.mem_cons_of_mem _ hq)) pr hpr

theorem recordCall_consistent {s : CostSession} (h : SessionConsistent s)
    (provider model : String) (inTok outTok : Nat) (cost : ℚ) :
    SessionConsistent (recordCall s provider model inTok outTok cost) := by
  obtain ⟨hcost, hcalls, hmodels, htok⟩ := h
  refine ⟨?_, ?_, ?_, ?_⟩
  · simp only [recordCall]
    rw [updateProviders_cost_sum, ← hcost]
  · simp only [recordCall]
    rw [updateProviders_calls_sum, ← hcalls]
  · exact updateProviders_models_consistent provider model inTok outTok cost
      s.providers hmodels
  · simp only [recordCall]
    omega

theorem foldl_recordCall_consistent (calls : List CallRecord) :
    ∀ s : CostSession, SessionConsistent s →
      SessionConsistent (calls.foldl
        (fun s c => recordCall s c.provider c.model c.inputTokens c.outputTokens c.cost) s) := by
  induction calls with
  | nil => intro s h; exact h
  | cons c rest ih =>
    intro s h
    exact ih _ (recordCall_consistent h c.provider c.model c.inputTokens c.outputTokens c.cost)

theorem foldl_recordCall_totals (calls : List CallRecord) :
    ∀ s : CostSession,
      (calls.foldl
        (fun s c => recordCall s c.provider c.model c.inputTokens c.outputTokens c.cost) s).total_cost =
        s.total_cost + (calls.map (fun c => c.cost)).sum ∧
      (calls.foldl
        (fun s c => recordCall s c.provider c.model c.inputTokens c.outputTokens c.cost) s).api_calls =
        s.api_calls + calls.length := by
  induction calls with
  | nil => intro s; simp
  | cons c rest ih =>
    intro s
    obtain ⟨ih1, ih2⟩ := ih (recordCall s c.provider c.model c.inputTokens c.outputTokens c.cost)
    constructor
    · rw [List.foldl_cons, ih1]
      show s.total_cost + c.cost + _ = _
      simp [List.sum_cons]
      ring
    · rw [List.foldl_cons, ih2]
      show s.api_calls + 1 + _ = _
      simp [List.length_cons]
      omega

/-- C4: the cost ledger is additively consistent.  For every list of per-call
records, the replayed session's `total_cost` equals the sum of the per-call
costs and also the sum over providers (each itself the sum over its models)
of the recorded cost, `api_calls` equals the sum of per-provider call counts,
and the token total is input plus output.  The `cost_tracking` objects
persisted in both level artifacts (and in the embedded original metadata of
the level-2 artifact) satisfy exactly these additive equations. -/
theorem c4_cost_ledger_additive (calls : List CallRecord) :
    SessionConsistent (replayLedger calls) ∧
    (replayLedger calls).total_cost = (calls.map (fun c => c.cost)).sum ∧
    (replayLedger calls).api_calls = calls.length ∧
    costTrackingConsistent
      ((level0Artifact.path ["metadata", "cost_tracking"]).getD .null) = true ∧
    costTrackingConsistent
      ((level2Artifact.path ["metadata", "cost_tracking"]).getD .null) = true ∧
    costTrackingConsistent
      ((level2Artifact.path ["metadata", "original_metadata", "cost_tracking"]).getD .null) = true := by
  have h1 := foldl_recordCall_consistent calls emptySession ⟨by simp [emptySession], by
    simp [emptySession], by simp [emptySession], by simp [emptySession]⟩
  have h2 := foldl_recordCall_totals calls emptySession
  exact ⟨h1, by simpa [replayLedger, emptySession] using h2.1,
    by simpa [replayLedger, emptySession] using h2.2, rfl, rfl, rfl⟩

/-! ## Theorems: skip-on-error policy (C3) -/

theorem children_asErrorLeaf (a : ActorNode) : a.asErrorLeaf.children = [] := by
  cases a; rfl

theorem errorFlag_asErrorLeaf (a : ActorNode) : a.asErrorLeaf.errorFlag = true := by
  cases a; rfl

theorem depth_asErrorLeaf (a : ActorNode) : a.asErrorLeaf.depth = a.depth := by
  cases a; rfl

theorem depth_withChildren (a : ActorNode) (cs : List ActorNode) :
    (a.withChildren cs).depth = a.depth := by
  cases a; rfl

theorem children_withChildren (a : ActorNode) (cs : List ActorNode) :
    (a.withChildren cs).children = cs := by
  cases a; rfl

theorem processLevel_skip_completed (stub : Nat → ProviderResponse)
    (budget breadth : Nat) :
    ∀ parents : List ActorNode,
      (processLevel stub budget breadth true parents).2.2.2 = .completed := by
  intro parents
  induction parents with
  | nil => rfl
  | cons parent rest ih =>
    rw [processLevel]
    cases hp : processNode stub budget breadth parent with
    | mk node ok =>
      cases ok
      · simpa using ih
      · simpa using ih

/-- C3: a node whose expansion was exhausted and skipped becomes a childless
leaf with the error flag; with `skip_on_error` the run always completes.  In
the §8 scenario — roots `A` and `B`, three sub-actors requested, a stub
provider failing every call with `ConnectionError`, `skip_on_error = true` —
both roots end with zero children and the error flag, `generation_stats`
counts 2 failed and 0 successful actors, and the run status is `completed`. -/
theorem c3_skip_on_error (stub : Nat → ProviderResponse) (budget breadth : Nat)
    (parent : ActorNode)
    (hfail : (processNode stub budget breadth parent).2 = false) :
    ((processNode stub budget breadth parent).1.children = [] ∧
     (processNode stub budget breadth parent).1.errorFlag = true) ∧
    (∀ parents : List ActorNode,
      (processLevel stub budget breadth true parents).2.2.2 = .completed) ∧
    ((generateLevel connFailStub 3 3 true [rootActor "A", rootActor "B"]).1.map
        ActorNode.name = ["A", "B"] ∧
     (generateLevel connFailStub 3 3 true [rootActor "A", rootActor "B"]).1.map
        ActorNode.children = [[], []] ∧
     (generateLevel connFailStub 3 3 true [rootActor "A", rootActor "B"]).1.map
        ActorNode.errorFlag = [true, true] ∧
     (generateLevel connFailStub 3 3 true [rootActor "A", rootActor "B"]).2.1.failed = 2 ∧
     (generateLevel connFailStub 3 3 true [rootActor "A", rootActor "B"]).2.1.successful = 0 ∧
     (generateLevel connFailStub 3 3 true [rootActor "A", rootActor "B"]).2.1.total_actors = 2 ∧
     (generateLevel connFailStub 3 3 true [rootActor "A", rootActor "B"]).2.2 = .completed) := by
  refine ⟨?_, processLevel_skip_completed stub budget breadth,
    rfl, rfl, rfl, rfl, rfl, rfl, rfl⟩
  rw [processNode] at hfail ⊢
  cases hr : (retryExpand stub budget 0 ⟨breadth, 0, false⟩).2 with
  | some kids => rw [hr] at hfail; simp at hfail
  | none =>
    exact ⟨children_asErrorLeaf parent, errorFlag_asErrorLeaf parent⟩

/-- Witness for C3: the stub that fails every call with a connection error,
attempt budget 3, breadth 3 and the root actor `A`, whose expansion is indeed
exhausted and skipped. -/
theorem c3_witness :
    ((processNode connFailStub 3 3 (rootActor "A")).1.children = [] ∧
     (processNode connFailStub 3 3 (rootActor "A")).1.errorFlag = true) ∧
    (∀ parents : List ActorNode,
      (processLevel connFailStub 3 3 true parents).2.2.2 = .completed) ∧
    ((generateLevel connFailStub 3 3 true [rootActor "A", rootActor "B"]).1.map
        ActorNode.name = ["A", "B"] ∧
     (generateLevel connFailStub 3 3 true [rootActor "A", rootActor "B"]).1.map
        ActorNode.children = [[], []] ∧
     (generateLevel connFailStub 3 3 true [rootActor "A", rootActor "B"]).1.map
        ActorNode.errorFlag = [true, true] ∧
     (generateLevel connFailStub 3 3 true [rootActor "A", rootActor "B"]).2.1.failed = 2 ∧
     (generateLevel connFailStub 3 3 true [rootActor "A", rootActor "B"]).2.1.successful = 0 ∧
     (generateLevel connFailStub 3 3 true [rootActor "A", rootActor "B"]).2.1.total_actors = 2 ∧
     (generateLevel connFailStub 3 3 true [rootActor "A", rootActor "B"]).2.2 = .completed) :=
  c3_skip_on_error connFailStub 3 3 (rootActor "A") rfl

/-! ## Theorems: depth invariant of generated trees (C1) -/

theorem depth_expandTree (stub : Nat → ProviderResponse) (budget breadth : Nat) :
    ∀ (remaining : Nat) (node : ActorNode),
      (expandTree stub budget breadth remaining node).depth = node.depth := by
  intro remaining node
  cases remaining with
  | zero => rfl
  | succ remaining =>
    rw [expandTree]
    cases (retryExpand stub budget 0 ⟨breadth, 0, false⟩).2 with
    | some kids => exact depth_withChildren _ _
    | none => exact depth_asErrorLeaf _

theorem depth_mkChild (parent : ActorNode) (draft : ChildDraft) :
    (mkChild parent draft).depth = parent.depth + 1 := rfl

theorem children_mkChild (parent : ActorNode) (draft : ChildDraft) :
    (mkChild parent draft).children = [] := rfl

theorem expandTree_depthInvariant (stub : Nat → ProviderResponse)
    (budget breadth target : Nat) :
    ∀ (remaining : Nat) (node : ActorNode),
      node.depth + remaining ≤ target → node.children = [] →
      DepthInvariant target (expandTree stub budget breadth remaining node) := by
  intro remaining
  induction remaining with
  | zero =>
    intro node hdepth hleaf
    rw [show expandTree stub budget breadth 0 node = node from rfl]
    refine DepthInvariant.mk (by omega) ?_ ?_ <;>
      · rw [hleaf]
        intro c hc
        simp at hc
  | succ remaining ih =>
    intro node hdepth hleaf
    rw [expandTree]
    cases (retryExpand stub budget 0 ⟨breadth, 0, false⟩).2 with
    | none =>
      show DepthInvariant target node.asErrorLeaf
      refine DepthInvariant.mk ?_ ?_ ?_
      · rw [depth_asErrorLeaf]; omega
      · rw [children_asErrorLeaf]; intro c hc; simp at hc
      · rw [children_asErrorLeaf]; intro c hc; simp at hc
    | some kids =>
      show DepthInvariant target (node.withChildren
        ((kids.map (mkChild node)).map (expandTree stub budget breadth remaining)))
      refine DepthInvariant.mk ?_ ?_ ?_
      · rw [depth_withChildren]; omega
      · rw [children_withChildren, depth_withChildren]
        intro c hc
        simp only [List.mem_map] at hc
        obtain ⟨c0, hc0, rfl⟩ := hc
        obtain ⟨d, _, rfl⟩ := hc0
        rw [depth_expandTree, depth_mkChild]
      · rw [children_withChildren]
        intro c hc
        simp only [List.mem_map] at hc
        obtain ⟨c0, hc0, rfl⟩ := hc
        obtain ⟨d, _, rfl⟩ := hc0
        exact ih (mkChild node d) (by rw [depth_mkChild]; omega) (children_mkChild node d)

/-- Counterexample to C1: the claim's artifact clause fails on both persisted
artifacts.  In the level-0 artifact (`metadata.level = 0`) every actor record
carries `depth = 1`, not `0`; in the level-2 artifact the actor records carry
no `depth` field at all. -/
theorem c1_counterexample :
    claimedDepthFieldCheck level0Artifact = false ∧
    claimedDepthFieldCheck level2Artifact = false ∧
    level0Artifact.numAt ["metadata", "level"] = some ⟨0, 0⟩ ∧
    ((level0Artifact.lookup "actors").getD .null).elems.map (fun a => a.lookup "depth") =
      [some (.num ⟨1, 0⟩), some (.num ⟨1, 0⟩)] :=
  ⟨rfl, rfl, rfl, rfl⟩

/-- C1 (amended): in the generation model, every tree grown from a childless
root satisfies `depth(child) = depth(parent) + 1` with no depth beyond the
target depth (and depths are naturals, hence ≥ 0); a root at depth 0 expanded
for `target_depth` levels keeps the whole tree within `target_depth`.  In the
persisted artifacts, however, the level-0 artifact's actor records all carry
`depth = 1` (level + 1, not 0), and the level-2 artifact's actor records
carry no `depth` field at all. -/
theorem c1_depth_invariant (stub : Nat → ProviderResponse)
    (budget breadth target : Nat) (root : ActorNode)
    (hroot : root.depth = 0) (hleaf : root.children = []) :
    DepthInvariant target (expandTree stub budget breadth target root) ∧
    ((level0Artifact.lookup "actors").getD .null).elems.map (fun a => a.lookup "depth") =
      [some (.num ⟨1, 0⟩), some (.num ⟨1, 0⟩)] ∧
    level0Artifact.numAt ["metadata", "level"] = some ⟨0, 0⟩ ∧
    ((level2Artifact.lookup "actors").getD .null).elems.all (actorNoDepthB 10) = true := by
  exact ⟨expandTree_depthInvariant stub budget breadth target target root
    (by omega) hleaf, rfl, rfl, rfl⟩

/-- Witness for C1 (amended): a concrete root named `World` at depth 0,
expanded two levels with breadth 2 against a provider stub that succeeds with
two drafts on every call. -/
theorem c1_witness :
    DepthInvariant 2 (expandTree
      (fun _ => .success [⟨"X", "", "country"⟩, ⟨"Y", "", "country"⟩]) 3 2 2
      (rootActor "World")) ∧
    ((level0Artifact.lookup "actors").getD .null).elems.map (fun a => a.lookup "depth") =
      [some (.num ⟨1, 0⟩), some (.num ⟨1, 0⟩)] ∧
    level0Artifact.numAt ["metadata", "level"] = some ⟨0, 0⟩ ∧
    ((level2Artifact.lookup "actors").getD .null).elems.all (actorNoDepthB 10) = true :=
  c1_depth_invariant (fun _ => .success [⟨"X", "", "country"⟩, ⟨"Y", "", "country"⟩])
    3 2 2 (rootActor "World") rfl rfl

/-! ## Theorems: persisted artifact schema (C2) -/

/-- Counterexample to C2: neither persisted level artifact conforms to the
claimed section-6 schema.  The level-0 artifact has no
`metadata.generation_stats` object at all and its actor records have no
`children` array; the level-2 artifact has no top-level `total_count`, its
stats object uses the legacy key names, and its actor records have no
`depth`, `parameters` or `children` fields. -/
theorem c2_counterexample :
    conformsSection6B 10 level0Artifact = false ∧
    conformsSection6B 10 level2Artifact = false ∧
    level0Artifact.path ["metadata", "generation_stats"] = none ∧
    level2Artifact.lookup "total_count" = none :=
  ⟨rfl, rfl, rfl, rfl⟩

/-- C2 (amended): the persisted level artifacts use the legacy shape.  The
level-2 artifact's `metadata.generation_stats` has exactly the keys
`total_main_actors`, `total_subactors`, `actors_with_subactors`,
`avg_subactors_per_actor`, `successful_actors`, `failed_actors`; the level-0
artifact has no generation_stats and carries a top-level integer
`total_count`, while the level-2 artifact instead carries top-level
`total_main_actors`, `total_subactors` and `level`; actor records carry
`name`, `description`, `type` and recurse through `sub_actors` (level-0
actors additionally carry `depth` and `parameters`, deeper actors
`parent_actor` and `sub_actors_count`; none carry `children`). -/
theorem c2_artifact_schema :
    ((level2Artifact.path ["metadata", "generation_stats"]).getD .null).keys =
      statsKeysActual ∧
    level0Artifact.path ["metadata", "generation_stats"] = none ∧
    level0Artifact.keys = ["metadata", "actors", "total_count"] ∧
    level0Artifact.numAt ["total_count"] = some ⟨2, 0⟩ ∧
    level2Artifact.keys =
      ["metadata", "actors", "total_main_actors", "total_subactors", "level"] ∧
    (((level0Artifact.lookup "actors").getD .null).elems.map Json.keys).all
      (fun ks => ks == ["name", "description", "type", "depth", "parameters"]) = true ∧
    (((level2Artifact.lookup "actors").getD .null).elems.map Json.keys).all
      (fun ks => ks == ["name", "description", "type", "sub_actors", "sub_actors_count"]) = true ∧
    ((level0Artifact.lookup "actors").getD .null).elems.all (actorLegacyShapeB 10) = true ∧
    ((level2Artifact.lookup "actors").getD .null).elems.all (actorLegacyShapeB 10) = true :=
  ⟨rfl, rfl, rfl, rfl, rfl, rfl, rfl, rfl, rfl⟩

/-! ## Theorems: serialize-then-load round trip (C7) -/

theorem decodeValueType_encodeValueType (vt : ValueType) :
    decodeValueType (encodeValueType vt) = some vt := by
  cases vt <;> rfl

theorem decodeParam_encodeParam (p : ParamRecord) :
    decodeParam (encodeParam p) = some p := by
  cases p with
  | mk cn dn de vt ev =>
    rw [encodeParam, decodeParam]
    simp only
    rw [decodeValueType_encodeValueType]
    rfl

theorem decodeParams_encode (ps : List ParamRecord) :
    decodeParams (ps.map encodeParam) = some ps := by
  induction ps with
  | nil => rfl
  | cons p ps ih =>
    rw [List.map_cons, decodeParams, decodeParam_encodeParam p, ih]

theorem actor_sizeOf_pos (a : ActorNode) : 1 ≤ sizeOf a := by
  cases a with
  | mk n d t dep ps cs f =>
    rw [ActorNode.mk.sizeOf_spec]
    omega

theorem list_sizeOf_pos {α : Type} [SizeOf α] (l : List α) : 1 ≤ sizeOf l := by
  cases l with
  | nil => simp
  | cons a l =>
    rw [List.cons.sizeOf_spec]
    omega

theorem decode_encode_strong :
    ∀ N : Nat,
      (∀ a : ActorNode, sizeOf a ≤ N → decodeActor (encodeActor a) = some a) ∧
      (∀ l : List ActorNode, sizeOf l ≤ N →
        decodeActors (l.map encodeActor) = some l) := by
  intro N
  induction N with
  | zero =>
    constructor
    · intro a ha
      have := actor_sizeOf_pos a
      omega
    · intro l hl
      cases l with
      | nil => rfl
      | cons a l =>
        rw [List.cons.sizeOf_spec] at hl
        have := actor_sizeOf_pos a
        omega
  | succ N ih =>
    constructor
    · intro a ha
      cases a with
      | mk n d t dep ps cs f =>
        have hcs : sizeOf cs ≤ N := by
          rw [ActorNode.mk.sizeOf_spec] at ha
          have := list_sizeOf_pos cs
          omega
        rw [encodeActor, List.attach_map_val]
        simp only [decodeActor]
        show (match decodeParams (ps.map encodeParam), decodeActors (cs.map encodeActor) with
          | some ps', some cs' => some (ActorNode.mk n d t dep ps' cs' f)
          | _, _ => none) = some (ActorNode.mk n d t dep ps cs f)
        rw [decodeParams_encode, ih.2 cs hcs]
    · intro l hl
      cases l with
      | nil => rfl
      | cons a l =>
        rw [List.cons.sizeOf_spec] at hl
        have hp1 := actor_sizeOf_pos a
        have hp2 := list_sizeOf_pos l
        have h1 : sizeOf a ≤ N := by omega
        have h2 : sizeOf l ≤ N := by omega
        rw [List.map_cons, decodeActors, ih.1 a h1, ih.2 l h2]

/-- C7: serializing a generated level to its section-6 JSON document and
reloading it through `LoadLevel` returns the level unchanged — in particular
node count, node names, node depths and all parent/child edges are identical
— and the serialized document's `total_count` is the number of top-level
actors. -/
theorem c7_save_load_roundtrip (meta : Json) (actors : List ActorNode) :
    loadLevel (saveLevelDoc meta actors) = some actors ∧
    (saveLevelDoc meta actors).numAt ["total_count"] =
      some ⟨(actors.length : Int), 0⟩ := by
  constructor
  · have hlook : Json.lookup (saveLevelDoc meta actors) "actors" =
        some (.arr (actors.map encodeActor)) := rfl
    rw [loadLevel, hlook]
    exact (decode_encode_strong (sizeOf actors)).2 actors (le_refl _)
  · rfl
